import Mathlib

/-!
Dashboard front end (`static/js/script.js`): rendering and refresh logic.

A shallow embedding of the dashboard script.  Every function below is the
translation of the JavaScript function of the same name.

Conventions of the embedding

* A JSON cell is a `JVal` (null, boolean, number, string); a property that is
  absent from an object (JavaScript `undefined`) is `none` of `Option JVal`.
* A finite JavaScript number is the rational (`Rat`) that the double stands
  for.  `Num` adds the two infinities and `NaN`, which `parseFloat` can produce;
  `parseFloat` rounds the decimal text it reads to the nearest double
  (`numberValue`).  The rounding of the arithmetic on numbers already read
  (a difference of years, a value times 100) is not modelled.
* A `Record` is one row of `/api/dados_filtrados_completos`: the three
  properties the charts do arithmetic on (`Pais`, `Ano`, `PIB_per_Capita`) are
  typed fields, every other own property is kept by key in `campos`.
* `Array.prototype.sort` is a stable sort; with a comparator that is consistent
  (as the numeric differences used here are) its result is the unique stable
  ordering, computed here by insertion.
* Locale and number-to-text conversions of the host (`toLocaleString`,
  `toFixed`, `String(number)`) are taken from an `Ambiente` value.
* The page is a `DOM` with the six mount points and the year-range label.
  `Plotly.newPlot(id, traces, layout)` replaces the content of the mount point
  by `Conteudo.plot traces layout`.  A `Layout` records which base layout is
  spread and what the call sets on top of it (title, axis titles, the direction
  of the y axis, the legend switch, the left margin); fonts, colours and the
  placement of the legend are left out, as are the constant styling attributes
  of the traces.
* A `Pagina` adds the filter controls, the messages passed to `console.error`
  and a log of the renderers invoked.  Network requests are inputs: a function
  that awaits `fetch` takes the outcome of each request as a `Fetch` value.
* An exception thrown by a renderer is a value of `Except`; the `try`/`catch` of
  the refresh turns it into a console message and keeps what was written before.
-/

namespace Dashboard

/-! ## Values -/

/-- A JSON scalar as delivered by `response.json()`. -/
inductive JVal where
  | null
  | bool (b : Bool)
  | num (q : Rat)
  | str (s : String)
deriving DecidableEq

/-- A JavaScript number: finite, plus or minus infinity, or NaN. -/
inductive Num where
  | fin (q : Rat)
  | inf (negative : Bool)
  | nan
deriving DecidableEq

/-- One country-year observation. -/
structure Record where
  Pais : String
  Ano : Int
  PIB_per_Capita : Rat
  campos : List (String × JVal)
deriving DecidableEq

/-- Host conversions from numbers to text. -/
structure Ambiente where
  /-- The call `n.toLocaleString()`. -/
  toLocaleString : Rat → String
  /-- The call `n.toLocaleString(undefined, {minimumFractionDigits: 0, maximumFractionDigits: 0})`. -/
  toLocaleString0 : Rat → String
  /-- The call `n.toFixed(digits)`. -/
  toFixed : Nat → Rat → String
  /-- The conversion `String(n)`. -/
  numToString : Rat → String

/-- The field `plotColors.colorSequence`. -/
def colorSequence : List String :=
  ["#9D4EDD", "#C77DFF", "#F72585", "#00BFFF", "#32CD32", "#FFD700"]

/-- The expression `plotColors.colorSequence[index % plotColors.colorSequence.length]`. -/
def corDoIndice (index : Nat) : String :=
  colorSequence.getD (index % colorSequence.length) ""

/-- The expression `s.replace(/_/g, " ")`. -/
def replaceUnderscores (s : String) : String :=
  String.mk (s.data.map (fun c => if c = '_' then ' ' else c))

/-! ## Array helpers -/

/-- The expression `[...new Set(xs)]`: the elements of `xs` in insertion order,
each kept the first time it is met. -/
def novoSet {α : Type} [DecidableEq α] (xs : List α) : List α :=
  xs.foldl (fun acc x => if x ∈ acc then acc else acc ++ [x]) []

/-- The call `xs.sort(cmp)`: stable, `a` stays before a later `b` unless
`cmp(a, b) > 0`. -/
def jsSort {α β : Type} [Zero β] [LE β] [DecidableRel (fun a b : β => a ≤ b)]
    (cmp : α → α → β) (xs : List α) : List α :=
  List.insertionSort (fun a b => cmp a b ≤ 0) xs

/-- Recursive description of `novoSet`. -/
def primeiros {α : Type} [DecidableEq α] : List α → List α
  | [] => []
  | x :: xs => x :: (primeiros xs).filter (fun y => y ≠ x)

/-! ## Plots and the page -/

/-- A `lines+markers` trace. -/
structure Serie where
  x : List Int
  y : List Num
  name : String
  color : String
deriving DecidableEq

/-- A trace handed to `Plotly.newPlot`. -/
inductive Traco where
  | scatter (s : Serie)
  | bar (y : List String) (x : List Rat) (colors : List String) (text : List String)
  | pie (values : List Rat) (labels : List String) (colors : List String)
deriving DecidableEq

/-- The object spread at the start of a layout: `commonChartLayout` or
`comparisonChartLayout`. -/
inductive LayoutBase where
  | commonChartLayout
  | comparisonChartLayout
deriving DecidableEq

/-- A layout handed to `Plotly.newPlot`: the base layout and what is set on top of
it.  `none` means that the call leaves the attribute as the base has it. -/
structure Layout where
  base : LayoutBase
  /-- The attribute `title.text`. -/
  title : String
  /-- The attribute `xaxis.title`. -/
  xaxisTitle : Option String
  /-- The attribute `yaxis.title`. -/
  yaxisTitle : Option String
  /-- The attribute `yaxis.autorange`. -/
  yaxisAutorange : Option String
  showlegend : Option Bool
  /-- The attribute `margin.l`. -/
  marginLeft : Option Nat
deriving DecidableEq

/-- A layout of the form `{...base, title: {text: title}}`. -/
def layoutComTitulo (base : LayoutBase) (title : String) : Layout :=
  { base := base, title := title, xaxisTitle := none, yaxisTitle := none,
    yaxisAutorange := none, showlegend := none, marginLeft := none }

/-- A layout of the form `{...commonChartLayout, title, xaxis: {..., title: xaxis},
yaxis: {..., title: yaxis}}`, used for the two line charts. -/
def layoutDeSeries (title xaxis yaxis : String) : Layout :=
  { base := LayoutBase.commonChartLayout, title := title, xaxisTitle := some xaxis,
    yaxisTitle := some yaxis, yaxisAutorange := none, showlegend := none, marginLeft := none }

/-- The object `barLayout` of `renderComparisonCharts`, for the year text of its title. -/
def barLayout (anoTituloComp : String) : Layout :=
  { base := LayoutBase.comparisonChartLayout
    title := "PIB per Capita Comparativo (" ++ anoTituloComp ++ ")"
    xaxisTitle := some "PIB per Capita (US$)"
    yaxisTitle := none
    yaxisAutorange := some "reversed"
    showlegend := some false
    marginLeft := some 100 }

/-- The object `donutLayout` of `renderComparisonCharts`, for the year text of its title. -/
def donutLayout (anoTituloComp : String) : Layout :=
  { base := LayoutBase.comparisonChartLayout
    title := "Participação no PIB do Grupo (" ++ anoTituloComp ++ ")"
    xaxisTitle := none
    yaxisTitle := none
    yaxisAutorange := none
    showlegend := some true
    marginLeft := none }

/-- The categories of the y axis of a horizontal bar chart as Plotly draws them,
from top to bottom: a category axis runs from bottom to top in the order of the
trace, and from top to bottom when `yaxis.autorange` is `"reversed"`. -/
def categoriasDeCimaParaBaixo (layout : Layout) (y : List String) : List String :=
  if layout.yaxisAutorange = some "reversed" then y else y.reverse

/-- What a mount point holds: markup written through `innerHTML`, or a plot. -/
inductive Conteudo where
  | html (s : String)
  | plot (traces : List Traco) (layout : Layout)
deriving DecidableEq

/-- The mount points of the page and the year-range label. -/
structure DOM where
  linha : Conteudo
  barras : Conteudo
  rosca : Conteudo
  estatisticas : Conteudo
  detalhes : Conteudo
  indicador : Conteudo
  sliderAnosValor : String
deriving DecidableEq

/-- Replace the content of the element with the given id (no such element: no change). -/
def DOM.set (d : DOM) (id : String) (c : Conteudo) : DOM :=
  if id = "grafico-pib-per-capita-tempo" then { d with linha := c }
  else if id = "grafico-comparacao-pib-histograma" then { d with barras := c }
  else if id = "grafico-comparacao-pib-rosca" then { d with rosca := c }
  else if id = "tabela-estatisticas-placeholder" then { d with estatisticas := c }
  else if id = "tabela-dados-detalhados-placeholder" then { d with detalhes := c }
  else if id = "grafico-indicador-adicional" then { d with indicador := c }
  else d

/-- The call `Plotly.newPlot(id, traces, layout)`. -/
def newPlot (d : DOM) (id : String) (traces : List Traco) (layout : Layout) : DOM :=
  d.set id (Conteudo.plot traces layout)

/-! ## Time-series chart -/

/-- The array `paises` of `renderLineChart`: `[...new Set(data.map(d => d.Pais))]`. -/
def paisesDe (data : List Record) : List String :=
  novoSet (data.map (fun d => d.Pais))

/-- The array `traces` built by `renderLineChart`. -/
def lineTraces (data : List Record) : List Serie :=
  (paisesDe data).mapIdx (fun index pais =>
    let dadosPais := jsSort (fun a b => a.Ano - b.Ano)
      (data.filter (fun d => d.Pais = pais))
    { x := dadosPais.map (fun d => d.Ano)
      y := dadosPais.map (fun d => Num.fin d.PIB_per_Capita)
      name := pais
      color := corDoIndice index })

/-- The function `renderLineChart(data, minAno, maxAno)`. -/
def renderLineChart (dom : DOM) (data : List Record) (minAno maxAno : String) : DOM :=
  newPlot dom "grafico-pib-per-capita-tempo" ((lineTraces data).map Traco.scatter)
    (layoutDeSeries ("Evolução do PIB per Capita (" ++ minAno ++ "-" ++ maxAno ++ ")")
      "Ano" "PIB per Capita (US$)")

/-! ## Ranked comparison charts -/

/-- The body of the `forEach` over `paisesNoFiltro` in `renderComparisonCharts`:
the record `ultimoRegistro` kept by the `reduce` over the country's records
(`none` when the country has no record, in which case nothing is pushed). -/
def ultimoRegistro (fullFilteredData : List Record) (pais : String) : Option Record :=
  let dadosPais := fullFilteredData.filter (fun d => d.Pais = pais)
  match dadosPais with
  | [] => none
  | primeiro :: _ =>
    some (dadosPais.foldl (fun ult atual => if atual.Ano > ult.Ano then atual else ult)
      primeiro)

/-- The array `ultimoAnoData` of `renderComparisonCharts`. -/
def ultimoAnoData (fullFilteredData : List Record) : List Record :=
  (paisesDe fullFilteredData).filterMap (ultimoRegistro fullFilteredData)

/-- The variable `anoTituloComp` of `renderComparisonCharts`. -/
def anoTituloComp (ultimos : List Record) (fallbackAnoTitulo : String) : String :=
  match novoSet (ultimos.map (fun d => d.Ano)) with
  | [] => fallbackAnoTitulo
  | [ano] => toString ano
  | ano :: anos =>
    toString (anos.foldl min ano) ++ "-" ++ toString (anos.foldl max ano)

/-- The array `sortedData` of `renderComparisonCharts`:
`[...ultimoAnoData].sort((a, b) => b.PIB_per_Capita - a.PIB_per_Capita)`. -/
def sortedData (ultimos : List Record) : List Record :=
  jsSort (fun a b => b.PIB_per_Capita - a.PIB_per_Capita) ultimos

/-- The single trace of `barData`. -/
def barData (env : Ambiente) (ultimos : List Record) : Traco :=
  Traco.bar
    ((sortedData ultimos).map (fun d => d.Pais))
    ((sortedData ultimos).map (fun d => d.PIB_per_Capita))
    ((sortedData ultimos).mapIdx (fun i _ => corDoIndice i))
    ((sortedData ultimos).map (fun d => env.toFixed 1 (d.PIB_per_Capita / 1000) ++ "k"))

/-- The single trace of `donutData`. -/
def donutData (ultimos : List Record) : Traco :=
  Traco.pie (ultimos.map (fun d => d.PIB_per_Capita)) (ultimos.map (fun d => d.Pais))
    colorSequence

/-- The function `renderComparisonCharts(fullFilteredData, fallbackAnoTitulo)`. -/
def renderComparisonCharts (env : Ambiente) (dom : DOM) (fullFilteredData : List Record)
    (fallbackAnoTitulo : String) : DOM :=
  let ultimos := ultimoAnoData fullFilteredData
  let ano := anoTituloComp ultimos fallbackAnoTitulo
  if ultimos.length > 0 then
    let dom1 := newPlot dom "grafico-comparacao-pib-histograma" [barData env ultimos]
      (barLayout ano)
    newPlot dom1 "grafico-comparacao-pib-rosca" [donutData ultimos] (donutLayout ano)
  else
    let emptyCompLayout := layoutComTitulo LayoutBase.comparisonChartLayout "Nenhum dado"
    let dom1 := newPlot dom "grafico-comparacao-pib-histograma" [] emptyCompLayout
    newPlot dom1 "grafico-comparacao-pib-rosca" [] emptyCompLayout

/-! ## Property access on records -/

/-- The expression `Object.keys(row)`. -/
def Record.keys (row : Record) : List String :=
  ["Pais", "Ano", "PIB_per_Capita"] ++ row.campos.map (fun kv => kv.1)

/-- The expression `row[key]`; `none` is `undefined`. -/
def Record.get (row : Record) (key : String) : Option JVal :=
  if key = "Pais" then some (JVal.str row.Pais)
  else if key = "Ano" then some (JVal.num row.Ano)
  else if key = "PIB_per_Capita" then some (JVal.num row.PIB_per_Capita)
  else row.campos.lookup key

/-- The call `row.hasOwnProperty(key)`. -/
def Record.hasOwnProperty (row : Record) (key : String) : Bool :=
  row.keys.contains key

/-! ## `parseFloat` -/

/-- White space skipped by `parseFloat` at the start of its argument. -/
def isStrWhiteSpaceChar (c : Char) : Bool :=
  let n := c.toNat
  n = 0x9 || n = 0xA || n = 0xB || n = 0xC || n = 0xD || n = 0x20 || n = 0xA0
    || n = 0x1680 || (0x2000 ≤ n && n ≤ 0x200A) || n = 0x2028 || n = 0x2029
    || n = 0x202F || n = 0x205F || n = 0x3000 || n = 0xFEFF

/-- The value of a run of decimal digits. -/
def valorDigitos (ds : List Char) : Nat :=
  ds.foldl (fun n c => 10 * n + (c.toNat - 48)) 0

/-- The Number value for a non-zero mathematical value: the nearest double, a tie
going to the double with an even significand, and an infinity when the rounded
value is 2 ^ 1024 or more in magnitude.  Doubles have 53 significant bits and
exponents from -1022 (subnormals included) to 1023. -/
def numberValue (q : Rat) : Num :=
  if q = 0 then Num.fin 0
  else
    let x : Rat := |q|
    let e0 : Int := (Nat.log2 x.num.natAbs : Int) - (Nat.log2 x.den : Int)
    let e : Int := if x < (2 : Rat) ^ e0 then e0 - 1 else e0
    let ulp : Rat := (2 : Rat) ^ (max e (-1022) - 52)
    let r : Rat := x / ulp
    let f : Int := r.floor
    let n : Int :=
      if r - f < 1 / 2 then f
      else if r - f > 1 / 2 then f + 1
      else if f % 2 = 0 then f else f + 1
    let v : Rat := (n : Rat) * ulp
    if v ≥ (2 : Rat) ^ (1024 : Nat) then Num.inf (decide (q < 0))
    else Num.fin (if q < 0 then -v else v)

/-- The exponent part of a decimal literal at the start of `cs`: `e` or `E`, an
optional sign and at least one digit.  Without such a part the exponent is 0. -/
def parseExpoente (cs : List Char) : Int :=
  match cs with
  | c :: rest =>
    if c = 'e' || c = 'E' then
      match rest with
      | '+' :: r => ((r.span Char.isDigit).1 |> valorDigitos : Nat)
      | '-' :: r => - ((r.span Char.isDigit).1 |> valorDigitos : Nat)
      | r => ((r.span Char.isDigit).1 |> valorDigitos : Nat)
    else 0
  | [] => 0

/-- The longest initial segment of `cs` that is an unsigned `StrDecimalLiteral`,
as a number; `none` when `cs` does not start with one. -/
def parseSemSinal (cs : List Char) : Option Num :=
  if "Infinity".data.isPrefixOf cs then some (Num.inf false)
  else
    let inteiros := cs.span Char.isDigit
    let fracao :=
      match inteiros.2 with
      | '.' :: r => r.span Char.isDigit
      | r => ([], r)
    if inteiros.1 = [] ∧ fracao.1 = [] then none
    else
      let mantissa : Rat :=
        (valorDigitos (inteiros.1 ++ fracao.1) : Rat) / (10 : Rat) ^ fracao.1.length
      some (numberValue (mantissa * (10 : Rat) ^ parseExpoente fracao.2))

/-- The call `parseFloat(s)` on a string. -/
def parseFloatString (s : String) : Num :=
  match s.data.dropWhile isStrWhiteSpaceChar with
  | '-' :: cs =>
    match parseSemSinal cs with
    | some (Num.fin q) => Num.fin (-q)
    | some (Num.inf _) => Num.inf true
    | _ => Num.nan
  | '+' :: cs => (parseSemSinal cs).getD Num.nan
  | cs => (parseSemSinal cs).getD Num.nan

/-- The call `parseFloat(v)`: the argument is converted to a string first, so
`null`, `undefined` and booleans give NaN and a finite number gives itself. -/
def parseFloat (v : Option JVal) : Num :=
  match v with
  | some (JVal.num q) => Num.fin q
  | some (JVal.str s) => parseFloatString s
  | _ => Num.nan

/-- The call `isNaN(n)` on a number. -/
def isNaN (n : Num) : Bool :=
  match n with
  | Num.nan => true
  | _ => false

/-! ## Optional-indicator chart -/

/-- The filter predicate of `renderIndicadorAdicionalChart`, without the country test:
`d[indicador] !== null && d[indicador] !== undefined && d[indicador] !== 'N/A'
&& !isNaN(parseFloat(d[indicador]))`. -/
def temValor (indicador : String) (d : Record) : Bool :=
  d.get indicador != some JVal.null && d.get indicador != none
    && d.get indicador != some (JVal.str "N/A") && !isNaN (parseFloat (d.get indicador))

/-- The array `dadosPais` of `renderIndicadorAdicionalChart`: the country's records
that carry a value, each paired with `parseFloat(d[indicador])`, sorted by year.
The source stores the parsed number back under the key `indicador` of a copy of
the record; the copy's `Ano` is unchanged (for `indicador = "Ano"` the parsed
number is the year itself), so the pair keeps the record as it was. -/
def dadosPaisIndicador (data : List Record) (indicador pais : String) : List (Record × Num) :=
  jsSort (fun a b => a.1.Ano - b.1.Ano)
    ((data.filter (fun d => d.Pais = pais && temValor indicador d)).map
      (fun d => (d, parseFloat (d.get indicador))))

/-- The array `traces` built by the `forEach` of `renderIndicadorAdicionalChart`. -/
def indicadorTraces (data : List Record) (indicador : String) : List Serie :=
  ((paisesDe data).mapIdx (fun index pais =>
    let dadosPais := dadosPaisIndicador data indicador pais
    if dadosPais.length > 0 then
      some { x := dadosPais.map (fun d => d.1.Ano)
             y := dadosPais.map (fun d => d.2)
             name := pais
             color := corDoIndice index : Serie }
    else none)).filterMap id

/-- The function `renderIndicadorAdicionalChart(data, indicador, minAno, maxAno)`. -/
def renderIndicadorAdicionalChart (dom : DOM) (data : List Record) (indicador : String)
    (minAno maxAno : String) : DOM :=
  if indicador = "" then
    dom.set "grafico-indicador-adicional"
      (Conteudo.html "<p class=\"empty-text\">Selecione um indicador.</p>")
  else if data.length = 0 || !((data.head?.map (fun d => d.hasOwnProperty indicador)).getD false) then
    dom.set "grafico-indicador-adicional"
      (Conteudo.html ("<p class=\"empty-text\">Indicador '" ++ replaceUnderscores indicador
        ++ "' não encontrado ou sem dados.</p>"))
  else if (indicadorTraces data indicador).length = 0 then
    dom.set "grafico-indicador-adicional"
      (Conteudo.html ("<p class=\"empty-text\">Não há dados para '"
        ++ replaceUnderscores indicador ++ "' com os filtros.</p>"))
  else
    newPlot dom "grafico-indicador-adicional"
      ((indicadorTraces data indicador).map Traco.scatter)
      (layoutDeSeries (replaceUnderscores indicador ++ " (" ++ minAno ++ "-" ++ maxAno ++ ")")
        "Ano" (replaceUnderscores indicador))

/-! ## Statistics table -/

/-- One row of `/api/estatisticas_pib`: an object, as its list of own properties. -/
abbrev StatRow := List (String × JVal)

/-- The conversion `String(v)` of a JSON scalar. -/
def jsToString (env : Ambiente) (v : JVal) : String :=
  match v with
  | JVal.null => "null"
  | JVal.bool b => if b then "true" else "false"
  | JVal.num q => env.numToString q
  | JVal.str s => s

/-- The expression `v || 'N/A'` inside a template literal. -/
def ouNA (env : Ambiente) (v : Option JVal) : String :=
  match v with
  | none => "N/A"
  | some JVal.null => "N/A"
  | some (JVal.bool false) => "N/A"
  | some (JVal.num q) => if q = 0 then "N/A" else env.numToString q
  | some (JVal.str s) => if s = "" then "N/A" else s
  | some (JVal.bool true) => "true"

/-- The expression `v !== undefined ? v.toLocaleString() : 'N/A'`.  Reading the
property `toLocaleString` of `null` throws a `TypeError`. -/
def localeOuNA (env : Ambiente) (v : Option JVal) : Except String String :=
  match v with
  | none => Except.ok "N/A"
  | some JVal.null =>
    Except.error "TypeError: Cannot read properties of null (reading 'toLocaleString')"
  | some (JVal.num q) => Except.ok (env.toLocaleString q)
  | some (JVal.str s) => Except.ok s
  | some (JVal.bool b) => Except.ok (if b then "true" else "false")

/-- The text of a numeric statistics cell when `localeOuNA` does not throw:
"N/A" for an absent field, the locale text of a number. -/
def textoLocale (env : Ambiente) (v : Option JVal) : String :=
  match v with
  | some (JVal.num q) => env.toLocaleString q
  | some (JVal.str s) => s
  | some (JVal.bool b) => if b then "true" else "false"
  | _ => "N/A"

/-- The keys of the six numeric cells of a statistics row, in column order. -/
def statKeys : List String :=
  ["Média", "Mediana", "Desvio Padrão", "Mínimo", "Máximo", "Variação no Período"]

/-- The cells of one statistics row: the country cell, then the six numeric cells. -/
def statCells (env : Ambiente) (stat : StatRow) : Except String (List String) :=
  (statKeys.mapM (fun key => localeOuNA env (stat.lookup key))).map
    (fun cells => ouNA env (stat.lookup "País") :: cells)

/-- The markup appended to `tableHTML` for one statistics row. -/
def statRowHTML (cells : List String) : String :=
  "<tr>" ++ String.join (cells.map (fun c => "\n                    <td>" ++ c ++ "</td>"))
    ++ "\n                </tr>"

/-- The header markup of the statistics table. -/
def statTableHead : String :=
  "<table class=\"stats-table\">" ++ "<thead><tr><th>País</th><th>Média</th><th>Mediana</th><th>Desv. Padrão</th><th>Mín.</th><th>Máx.</th><th>Variação</th></tr></thead><tbody>"

/-- The markup of the statistics table with the given rows of cells. -/
def statTableHTML (rows : List (List String)) : String :=
  statTableHead ++ String.join (rows.map statRowHTML) ++ "</tbody></table>"

/-- The function `renderEstatisticasTable(statsData)`: the new page, or the
exception thrown before anything is written. -/
def renderEstatisticasTable (env : Ambiente) (dom : DOM) (statsData : List StatRow) :
    Except String DOM :=
  if statsData.length = 0 then
    Except.ok (dom.set "tabela-estatisticas-placeholder"
      (Conteudo.html "<p class=\"empty-text\">Nenhuma estatística disponível.</p>"))
  else
    (statsData.mapM (statCells env)).map (fun rows =>
      dom.set "tabela-estatisticas-placeholder" (Conteudo.html (statTableHTML rows)))

/-! ## Detailed-records table -/

/-- The array `colunasVisiveis`. -/
def colunasVisiveis : List String :=
  ["Pais", "Ano", "PIB_per_Capita", "Continent", "Type", "CAGR_Forecast"]

/-- The array `headers`: `colunasVisiveis.filter(col => headersExistentes.includes(col))`. -/
def headersDe (headersExistentes : List String) : List String :=
  colunasVisiveis.filter (fun col => headersExistentes.contains col)

/-- The test `String(header).toLowerCase().includes('rate')` (ASCII lower-casing). -/
def nomeDeTaxa (header : String) : Bool :=
  header.toLower.data.tails.any (fun t => "rate".data.isPrefixOf t)

/-- The text of one table cell: the formatting of `row[header]` and the
substitution of `N/A` for a missing value. -/
def formatCell (env : Ambiente) (header : String) (cellValue : Option JVal) : String :=
  match cellValue with
  | some (JVal.num q) =>
    let texto :=
      if header = "PIB_per_Capita" then env.toLocaleString0 q
      else if header = "CAGR_Forecast" ∨ (nomeDeTaxa header = true ∧ q < 1 ∧ q > -1) then
        env.toFixed 2 (q * 100) ++ "%"
      else if ¬ q.isInt then env.toFixed 2 q
      else env.toLocaleString q
    if texto ≠ "N/A" then texto else "N/A"
  | some (JVal.str s) => if s ≠ "N/A" then s else "N/A"
  | some (JVal.bool b) => if b then "true" else "false"
  | some JVal.null => "N/A"
  | none => "N/A"

/-- The header texts shown in the table: underscores replaced by spaces. -/
def headerTexts (headers : List String) : List String :=
  headers.map replaceUnderscores

/-- The cell texts of the table body, one list per record. -/
def bodyCells (env : Ambiente) (headers : List String) (data : List Record) :
    List (List String) :=
  data.map (fun row => headers.map (fun header => formatCell env header (row.get header)))

/-- The markup of the detailed-records table. -/
def detailsTableHTML (ths : List String) (rows : List (List String)) : String :=
  "<div class=\"table-wrapper\"><table class=\"details-table\">" ++ "<thead><tr>"
    ++ String.join (ths.map (fun h => "<th>" ++ h ++ "</th>"))
    ++ "</tr></thead><tbody>"
    ++ String.join (rows.map (fun cells =>
        "<tr>" ++ String.join (cells.map (fun c => "<td>" ++ c ++ "</td>")) ++ "</tr>"))
    ++ "</tbody></table></div>"

/-- The function `renderDadosDetalhadosTable(fullFilteredData)`. -/
def renderDadosDetalhadosTable (env : Ambiente) (dom : DOM) (fullFilteredData : List Record) :
    DOM :=
  match fullFilteredData with
  | [] =>
    dom.set "tabela-dados-detalhados-placeholder"
      (Conteudo.html "<p class=\"empty-text\">Nenhum dado detalhado para os filtros.</p>")
  | primeiro :: _ =>
    let headers := headersDe primeiro.keys
    dom.set "tabela-dados-detalhados-placeholder"
      (Conteudo.html (detailsTableHTML (headerTexts headers)
        (bodyCells env headers fullFilteredData)))

/-! ## Filter controls -/

/-- An `option` element. -/
structure Opcao where
  value : String
  text : String
  selected : Bool
deriving DecidableEq

/-- A `select` element (display size 1 unless `multiple`). -/
structure Select where
  multiple : Bool
  options : List Opcao
deriving DecidableEq

/-- The call `select.appendChild(option)` with a freshly created, unselected option:
a single-choice list with nothing selected then selects its first option. -/
def Select.appendChild (sel : Select) (value text : String) : Select :=
  let opts := sel.options ++ [{ value := value, text := text, selected := false }]
  if !sel.multiple && !opts.any (fun o => o.selected) then
    { sel with options := opts.mapIdx (fun i o => if i = 0 then { o with selected := true } else o) }
  else { sel with options := opts }

/-- The assignment `select.options[i].selected = true`. -/
def Select.selectIndex (sel : Select) (i : Nat) : Select :=
  { sel with options := sel.options.mapIdx (fun j o =>
      if j = i then { o with selected := true }
      else if sel.multiple then o else { o with selected := false }) }

/-- The assignment `select.value = v`: every option is deselected, then the first
option whose value is `v`, if any, is selected. -/
def Select.setValue (sel : Select) (v : String) : Select :=
  { sel with options := sel.options.mapIdx (fun j o =>
      { o with selected := decide (sel.options.findIdx? (fun o => o.value = v) = some j) }) }

/-- The property `select.value`: the value of the first selected option, or the
empty string. -/
def Select.value (sel : Select) : String :=
  ((sel.options.find? (fun o => o.selected)).map (fun o => o.value)).getD ""

/-- The property `select.selectedOptions`. -/
def Select.selectedOptions (sel : Select) : List Opcao :=
  sel.options.filter (fun o => o.selected)

/-- The outcome of `await fetch(url)` followed by `response.json()`: the request
is rejected, or a response arrives with its `ok` flag, status and parsed body. -/
inductive Fetch (α : Type) where
  | rejeitado (motivo : String)
  | resposta (ok : Bool) (status : Nat) (json : α)

/-- The loop `for (let i = 0; i < defaultCount && i < options.length; i++)
options[i].selected = true`. -/
def selecionarPrimeiros (sel : Select) (defaultCount : Nat) : Select :=
  (List.range (min defaultCount sel.options.length)).foldl (fun s i => s.selectIndex i) sel

/-- The function `fetchAndPopulate(url, dropdownElement, selectMultiple, defaultCount,
isIndicador)`: the control after the call and the error logged, if any. -/
def fetchAndPopulate (url : String) (resposta : Fetch (List String)) (dropdownElement : Select)
    (selectMultiple : Bool) (defaultCount : Nat) (isIndicador : Bool) :
    Select × Option String :=
  match resposta with
  | Fetch.rejeitado motivo => (dropdownElement, some ("Erro ao buscar dados de " ++ url ++ ": " ++ motivo))
  | Fetch.resposta ok status data =>
    if !ok then
      (dropdownElement, some ("Erro ao buscar dados de " ++ url
        ++ ": Error: HTTP error! status: " ++ toString status))
    else
      let vazio : Select := { dropdownElement with options := [] }
      let comNenhum :=
        if isIndicador && data.length > 0 then vazio.appendChild "" "Nenhum" else vazio
      let populado :=
        data.foldl (fun sel item => sel.appendChild item (replaceUnderscores item)) comNenhum
      if selectMultiple && defaultCount > 0 then
        (selecionarPrimeiros populado defaultCount, none)
      else if !selectMultiple && data.length > 0 then
        let firstRealOptionIndex := if isIndicador then 1 else 0
        if populado.options.length > firstRealOptionIndex then
          (populado.setValue ((populado.options.map (fun o => o.value)).getD firstRealOptionIndex ""),
            none)
        else if populado.options.length > 0 && !isIndicador then
          (populado.setValue ((populado.options.map (fun o => o.value)).getD 0 ""), none)
        else (populado, none)
      else (populado, none)

/-! ## The page and the refresh -/

/-- An `input` element of the year range. -/
structure Entrada where
  value : String
  min : String
  max : String
deriving DecidableEq

/-- The page: filter controls, mount points, the messages written by
`console.error` (oldest first) and, as instrumentation, the names of the
renderers invoked so far (oldest first). -/
structure Pagina where
  paisesDropdown : Select
  indicadorDropdown : Select
  minAnoInput : Entrada
  maxAnoInput : Entrada
  dom : DOM
  console : List String
  chamadas : List String
deriving DecidableEq

/-- The markup written by `displayLoading`. -/
def loadingHTML : String :=
  "<p class=\"loading-text\" style=\"text-align:center; color:var(--text-secondary); padding: 20px 0;\">Carregando...</p>"

/-- The markup written by `displayEmpty` for a message. -/
def emptyHTML (message : String) : String :=
  "<p class=\"empty-text\" style=\"text-align:center; color:var(--text-secondary); padding: 20px 0;\">"
    ++ message ++ "</p>"

/-- The default message of `displayEmpty`. -/
def mensagemPadrao : String := "Nenhum dado para os filtros selecionados."

/-- The function `displayLoading(elementId)`. -/
def displayLoading (dom : DOM) (elementId : String) : DOM :=
  dom.set elementId (Conteudo.html loadingHTML)

/-- The function `displayEmpty(elementId, message)`. -/
def displayEmpty (dom : DOM) (elementId : String) (message : String) : DOM :=
  dom.set elementId (Conteudo.html (emptyHTML message))

/-- The function `updateAnosValorDisplay()`. -/
def updateAnosValorDisplay (p : Pagina) : Pagina :=
  if p.minAnoInput.value ≠ "" ∧ p.maxAnoInput.value ≠ "" then
    { p with dom := { p.dom with
        sliderAnosValor := p.minAnoInput.value ++ " - " ++ p.maxAnoInput.value } }
  else p

/-- The statements of `fetchDataAndRenderAllCharts` before its `try` block: the
loading placeholders. -/
def mostrarCarregando (dom : DOM) (selectedIndicador : String) : DOM :=
  let d1 := ["grafico-pib-per-capita-tempo", "grafico-comparacao-pib-histograma",
    "grafico-comparacao-pib-rosca"].foldl displayLoading dom
  let d2 := displayLoading d1 "tabela-estatisticas-placeholder"
  let d3 := displayLoading d2 "tabela-dados-detalhados-placeholder"
  if selectedIndicador ≠ "" then displayLoading d3 "grafico-indicador-adicional"
  else displayEmpty d3 "grafico-indicador-adicional" "Selecione um indicador para visualizar."

/-- The `catch` clause of `fetchDataAndRenderAllCharts`. -/
def registrarErro (p : Pagina) (erro : String) : Pagina :=
  { p with console := p.console ++ ["Erro ao buscar ou renderizar dados: " ++ erro] }

/-- The last statement of both branches: `renderEstatisticasTable(statsData)`, whose
exception, if any, reaches the `catch` clause. -/
def chamarEstatisticas (env : Ambiente) (p : Pagina) (statsData : List StatRow) : Pagina :=
  let p1 := { p with chamadas := p.chamadas ++ ["renderEstatisticasTable"] }
  match renderEstatisticasTable env p1.dom statsData with
  | Except.ok dom => { p1 with dom := dom }
  | Except.error erro => registrarErro p1 erro

/-- The branch of `fetchDataAndRenderAllCharts` taken when the record list is empty. -/
def renderizarVazio (env : Ambiente) (p : Pagina) (selectedIndicador : String) : Pagina :=
  let d1 := newPlot p.dom "grafico-pib-per-capita-tempo" []
    (layoutComTitulo LayoutBase.commonChartLayout "Nenhum dado para os filtros selecionados")
  let d2 := newPlot d1 "grafico-comparacao-pib-histograma" []
    (layoutComTitulo LayoutBase.commonChartLayout "Nenhum dado")
  let d3 := newPlot d2 "grafico-comparacao-pib-rosca" []
    (layoutComTitulo LayoutBase.comparisonChartLayout "Nenhum dado")
  let d4 := displayEmpty d3 "tabela-dados-detalhados-placeholder" mensagemPadrao
  let p1 := chamarEstatisticas env { p with dom := d4 } []
  if selectedIndicador = "" then
    { p1 with dom := displayEmpty p1.dom "grafico-indicador-adicional" "Selecione um indicador." }
  else p1

/-- The branch of `fetchDataAndRenderAllCharts` taken when there are records. -/
def renderizarTudo (env : Ambiente) (p : Pagina) (fullFilteredData : List Record)
    (statsData : List StatRow) (selectedIndicador minAnoVal maxAnoVal : String) : Pagina :=
  let d1 := renderLineChart p.dom fullFilteredData minAnoVal maxAnoVal
  let d2 := renderComparisonCharts env d1 fullFilteredData maxAnoVal
  let d3 := renderDadosDetalhadosTable env d2 fullFilteredData
  let p3 := { p with dom := d3, chamadas := p.chamadas
    ++ ["renderLineChart", "renderComparisonCharts", "renderDadosDetalhadosTable"] }
  let p4 :=
    if selectedIndicador ≠ "" then
      { p3 with
        dom := renderIndicadorAdicionalChart p3.dom fullFilteredData selectedIndicador
          minAnoVal maxAnoVal
        chamadas := p3.chamadas ++ ["renderIndicadorAdicionalChart"] }
    else
      { p3 with dom := (displayEmpty p3.dom "grafico-indicador-adicional"
          "Selecione um indicador para visualizar.") }
  chamarEstatisticas env p4 statsData

/-- The function `fetchDataAndRenderAllCharts()`, given the outcomes of its two
requests (the second request is only made when the first one succeeded). -/
def fetchDataAndRenderAllCharts (env : Ambiente) (full : Fetch (List Record))
    (stats : Fetch (List StatRow)) (p : Pagina) : Pagina :=
  let minAnoVal := p.minAnoInput.value
  let maxAnoVal := p.maxAnoInput.value
  let selectedIndicador := p.indicadorDropdown.value
  let p0 := { p with dom := mostrarCarregando p.dom selectedIndicador }
  match full with
  | Fetch.rejeitado motivo => registrarErro p0 motivo
  | Fetch.resposta okFull statusFull fullFilteredData =>
    if !okFull then registrarErro p0 ("Error: Full Data HTTP error! status: " ++ toString statusFull)
    else
      match stats with
      | Fetch.rejeitado motivo => registrarErro p0 motivo
      | Fetch.resposta okStats statusStats statsData =>
        if !okStats then
          registrarErro p0 ("Error: Stats Data HTTP error! status: " ++ toString statusStats)
        else
          let p1 := updateAnosValorDisplay p0
          if fullFilteredData.length = 0 then renderizarVazio env p1 selectedIndicador
          else renderizarTudo env p1 fullFilteredData statsData selectedIndicador minAnoVal maxAnoVal

/-- The function `initializeFilters()`, given the outcomes of its requests. -/
def initializeFilters (env : Ambiente) (paises indicadores : Fetch (List String))
    (anos : Fetch (Int × Int)) (full : Fetch (List Record)) (stats : Fetch (List StatRow))
    (p : Pagina) : Pagina :=
  let r1 := fetchAndPopulate "/api/paises" paises p.paisesDropdown true 2 false
  let r2 := fetchAndPopulate "/api/lista_indicadores" indicadores p.indicadorDropdown false 0 true
  let p2 := { p with
    paisesDropdown := r1.1
    indicadorDropdown := r2.1
    console := p.console ++ r1.2.toList ++ r2.2.toList }
  let p3 :=
    match anos with
    | Fetch.rejeitado motivo =>
      { p2 with console := p2.console ++ ["Erro ao buscar range de anos: " ++ motivo] }
    | Fetch.resposta ok status range =>
      if !ok then
        { p2 with console := p2.console
            ++ ["Erro ao buscar range de anos: Error: HTTP error! status: " ++ toString status] }
      else
        updateAnosValorDisplay { p2 with
          minAnoInput := ⟨toString range.1, toString range.1, toString range.2⟩
          maxAnoInput := ⟨toString range.2, toString range.1, toString range.2⟩ }
  fetchDataAndRenderAllCharts env full stats p3

/-! ## Sample data -/

/-- A record with no optional field. -/
def registro (pais : String) (ano : Int) (pib : Rat) : Record :=
  { Pais := pais, Ano := ano, PIB_per_Capita := pib, campos := [] }

/-- Four records of two countries, out of year order. -/
def amostra : List Record :=
  [registro "B" 2001 5, registro "A" 2002 1, registro "B" 2000 7, registro "A" 2001 3]

/-- A host that writes a number as its numerator, a slash and its denominator. -/
def ambienteFracao : Ambiente :=
  { toLocaleString := fun q => toString q.num ++ "/" ++ toString q.den
    toLocaleString0 := fun q => toString q.num ++ "/" ++ toString q.den
    toFixed := fun _ q => toString q.num ++ "/" ++ toString q.den
    numToString := fun q => toString q.num ++ "/" ++ toString q.den }

/-- A page whose mount points are all empty. -/
def domVazio : DOM :=
  { linha := Conteudo.html "", barras := Conteudo.html "", rosca := Conteudo.html "",
    estatisticas := Conteudo.html "", detalhes := Conteudo.html "",
    indicador := Conteudo.html "", sliderAnosValor := "" }

/-- A page before start-up: empty controls, empty mount points. -/
def paginaInicial : Pagina :=
  { paisesDropdown := { multiple := true, options := [] }
    indicadorDropdown := { multiple := false, options := [] }
    minAnoInput := { value := "", min := "", max := "" }
    maxAnoInput := { value := "", min := "", max := "" }
    dom := domVazio, console := [], chamadas := [] }

/-- Two records of one country; only the second carries the optional fields
`Continent` and `Population`. -/
def amostraHeterogenea : List Record :=
  [registro "A" 2000 1,
   { Pais := "A", Ano := 2001, PIB_per_Capita := 2,
     campos := [("Continent", JVal.str "Europe"), ("Population", JVal.num 5)] }]

/-- A page after start-up on which the indicator `Population_Growth` is selected. -/
def paginaComIndicador : Pagina :=
  { paginaInicial with
    indicadorDropdown :=
      { multiple := false
        options := [{ value := "", text := "Nenhum", selected := false },
          { value := "Population_Growth", text := "Population Growth", selected := true }] }
    minAnoInput := { value := "2015", min := "2000", max := "2020" }
    maxAnoInput := { value := "2020", min := "2000", max := "2020" } }

/-- A statistics row whose standard deviation is `null`. -/
def statComNull : StatRow :=
  [("País", JVal.str "Brasil"), ("Média", JVal.num 8900), ("Mediana", JVal.num 8900),
   ("Desvio Padrão", JVal.null), ("Mínimo", JVal.num 8900), ("Máximo", JVal.num 8900),
   ("Variação no Período", JVal.num 0)]

/-- Four records of one country; the last three share its maximum year. -/
def amostraEmpate : List Record :=
  [registro "A" 2019 10, registro "A" 2020 1, registro "A" 2020 2, registro "A" 2020 3]

/-- Three records; the first, of country A, lacks the key `Population`, the two of
country B carry it. -/
def amostraSemChave : List Record :=
  [registro "A" 2000 1,
   { Pais := "B", Ano := 2001, PIB_per_Capita := 2, campos := [("Population", JVal.num 7)] },
   { Pais := "B", Ano := 2000, PIB_per_Capita := 3, campos := [("Population", JVal.num 6)] }]

/-- Four records that all have the key `Population`: a number, `null`, the string
"N/A" and a number again. -/
def amostraIndicador : List Record :=
  [{ Pais := "A", Ano := 2001, PIB_per_Capita := 1, campos := [("Population", JVal.num 5)] },
   { Pais := "A", Ano := 2000, PIB_per_Capita := 2, campos := [("Population", JVal.null)] },
   { Pais := "B", Ano := 2000, PIB_per_Capita := 3, campos := [("Population", JVal.str "N/A")] },
   { Pais := "A", Ano := 1999, PIB_per_Capita := 4, campos := [("Population", JVal.num 3)] }]

/-! ## Lemmas on the array helpers -/

theorem novoSet_foldl {α : Type} [DecidableEq α] (xs acc : List α) :
    xs.foldl (fun acc x => if x ∈ acc then acc else acc ++ [x]) acc
      = acc ++ (primeiros xs).filter (fun y => y ∉ acc) := by
  induction xs generalizing acc with
  | nil => simp [primeiros]
  | cons x xs ih =>
    simp only [List.foldl_cons, primeiros]
    by_cases hx : x ∈ acc
    · rw [if_pos hx, ih, List.filter_cons_of_neg (by simpa using hx), List.filter_filter]
      congr 1
      apply List.filter_congr
      intro y _
      by_cases hy : y ∈ acc
      · simp [hy]
      · have : y ≠ x := fun h => hy (h ▸ hx)
        simp [hy, this]
    · rw [if_neg hx, ih, List.filter_cons_of_pos (by simpa using hx), List.filter_filter,
        List.append_assoc]
      congr 1
      simp only [List.singleton_append, List.cons.injEq, true_and]
      apply List.filter_congr
      intro y _
      by_cases hy : y ∈ acc <;> by_cases hyx : y = x <;> simp [hy, hyx]

theorem novoSet_eq_primeiros {α : Type} [DecidableEq α] (xs : List α) :
    novoSet xs = primeiros xs := by
  unfold novoSet
  rw [novoSet_foldl]
  simp

theorem mem_primeiros {α : Type} [DecidableEq α] (xs : List α) (a : α) :
    a ∈ primeiros xs ↔ a ∈ xs := by
  induction xs with
  | nil => simp [primeiros]
  | cons x xs ih =>
    simp only [primeiros, List.mem_cons, List.mem_filter, ih]
    by_cases h : a = x <;> simp [h]

theorem nodup_primeiros {α : Type} [DecidableEq α] (xs : List α) :
    (primeiros xs).Nodup := by
  induction xs with
  | nil => simp [primeiros]
  | cons x xs ih =>
    simp only [primeiros, List.nodup_cons, List.mem_filter]
    exact ⟨by simp, ih.filter _⟩

theorem mem_novoSet {α : Type} [DecidableEq α] (xs : List α) (a : α) :
    a ∈ novoSet xs ↔ a ∈ xs := by
  rw [novoSet_eq_primeiros, mem_primeiros]

theorem nodup_novoSet {α : Type} [DecidableEq α] (xs : List α) : (novoSet xs).Nodup := by
  rw [novoSet_eq_primeiros]; exact nodup_primeiros xs


theorem pairwise_indexOf_primeiros {α : Type} [DecidableEq α] (xs : List α) :
    (primeiros xs).Pairwise (fun a b => xs.indexOf a < xs.indexOf b) := by
  induction xs with
  | nil => simp [primeiros]
  | cons x xs ih =>
    simp only [primeiros, List.pairwise_cons, List.mem_filter]
    constructor
    · intro b hb
      have hbx : b ≠ x := by simpa using hb.2
      rw [List.indexOf_cons_self, List.indexOf_cons_ne _ (Ne.symm hbx)]
      exact Nat.succ_pos _
    · refine (ih.filter _).imp_of_mem ?_
      intro a b ha hb hab
      have hax : a ≠ x := by simpa using (List.mem_filter.1 ha).2
      have hbx : b ≠ x := by simpa using (List.mem_filter.1 hb).2
      rw [List.indexOf_cons_ne _ (Ne.symm hax), List.indexOf_cons_ne _ (Ne.symm hbx)]
      exact Nat.succ_lt_succ hab

theorem mem_paisesDe (data : List Record) (c : String) :
    c ∈ paisesDe data ↔ ∃ d ∈ data, d.Pais = c := by
  simp [paisesDe, mem_novoSet]

theorem jsSort_perm {α β : Type} [Zero β] [LE β] [DecidableRel (fun a b : β => a ≤ b)]
    (cmp : α → α → β) (xs : List α) : (jsSort cmp xs).Perm xs :=
  List.perm_insertionSort _ xs

theorem jsSort_pairwise {α β γ : Type} [Zero β] [LE β] [DecidableRel (fun a b : β => a ≤ b)]
    [LinearOrder γ] (cmp : α → α → β) (key : α → γ)
    (h : ∀ a b, cmp a b ≤ 0 ↔ key a ≤ key b) (xs : List α) :
    (jsSort cmp xs).Pairwise (fun a b => key a ≤ key b) := by
  have hs := @List.sorted_insertionSort α (fun a b => cmp a b ≤ 0) _
    ⟨fun a b => by
      rcases le_total (key a) (key b) with hab | hab
      · exact Or.inl ((h a b).2 hab)
      · exact Or.inr ((h b a).2 hab)⟩
    ⟨fun a b c hab hbc => (h a c).2 (le_trans ((h a b).1 hab) ((h b c).1 hbc))⟩ xs
  exact List.Pairwise.imp (fun {a b} hab => (h a b).1 hab) hs

/-- C1: `renderLineChart` plots exactly one trace per distinct country of the
record list, in order of first appearance; the x-values of a trace are the
years of that country's records in non-decreasing order, and `y[i]` is the
`PIB_per_Capita` of the record whose year is `x[i]`. -/
theorem renderLineChart_one_sorted_trace_per_country (dom : DOM) (data : List Record)
    (minAno maxAno : String) :
    (renderLineChart dom data minAno maxAno).linha
        = Conteudo.plot ((lineTraces data).map Traco.scatter)
            (layoutDeSeries ("Evolução do PIB per Capita (" ++ minAno ++ "-" ++ maxAno ++ ")")
              "Ano" "PIB per Capita (US$)")
    ∧ (lineTraces data).map (fun t => t.name) = paisesDe data
    ∧ (paisesDe data).Nodup
    ∧ (∀ c, c ∈ paisesDe data ↔ ∃ d ∈ data, d.Pais = c)
    ∧ (paisesDe data).Pairwise (fun a b =>
        (data.map (fun d => d.Pais)).indexOf a < (data.map (fun d => d.Pais)).indexOf b)
    ∧ ∀ t ∈ lineTraces data,
        t.x.Pairwise (fun a b => a ≤ b)
        ∧ ∃ recs : List Record, recs.Perm (data.filter (fun d => d.Pais = t.name))
            ∧ t.x = recs.map (fun d => d.Ano)
            ∧ t.y = recs.map (fun d => Num.fin d.PIB_per_Capita) := by
  refine ⟨by simp [renderLineChart, newPlot, DOM.set], ?_, ?_, mem_paisesDe data, ?_, ?_⟩
  · apply List.ext_getElem
    · simp [lineTraces]
    · intro i h1 h2
      simp [lineTraces]
  · exact nodup_novoSet _
  · unfold paisesDe
    rw [novoSet_eq_primeiros]
    exact pairwise_indexOf_primeiros _
  · intro t ht
    obtain ⟨i, hi, rfl⟩ := List.mem_mapIdx.1 ht
    refine ⟨?_, _, jsSort_perm _ _, rfl, rfl⟩
    simp only [List.pairwise_map]
    exact jsSort_pairwise _ (fun d : Record => d.Ano) (fun a b => sub_nonpos) _
theorem reduce_first_max (l : List Record) (d0 : Record) :
    ∃ pre post, d0 :: l
        = pre ++ l.foldl (fun ult atual => if atual.Ano > ult.Ano then atual else ult) d0 :: post
      ∧ (∀ d ∈ pre,
          d.Ano < (l.foldl (fun ult atual => if atual.Ano > ult.Ano then atual else ult) d0).Ano)
      ∧ (∀ d ∈ post,
          d.Ano ≤ (l.foldl (fun ult atual => if atual.Ano > ult.Ano then atual else ult) d0).Ano) := by
  induction l using List.reverseRecOn with
  | nil => exact ⟨[], [], by simp⟩
  | append_singleton l a ih =>
    obtain ⟨pre, post, heq, hpre, hpost⟩ := ih
    rw [List.foldl_append, List.foldl_cons, List.foldl_nil]
    by_cases h : a.Ano > (l.foldl (fun ult atual => if atual.Ano > ult.Ano then atual else ult) d0).Ano
    · rw [if_pos h]
      refine ⟨d0 :: l, [], by simp, ?_, by simp⟩
      intro d hd
      rw [heq] at hd
      rcases List.mem_append.1 hd with hd | hd
      · exact lt_trans (hpre d hd) h
      · rcases List.mem_cons.1 hd with hd | hd
        · rw [hd]; exact h
        · exact lt_of_le_of_lt (hpost d hd) h
    · rw [if_neg h]
      refine ⟨pre, post ++ [a], ?_, hpre, ?_⟩
      · rw [← List.cons_append, heq]; simp
      · intro d hd
        rcases List.mem_append.1 hd with hd | hd
        · exact hpost d hd
        · rw [List.mem_singleton.1 hd]; exact not_lt.1 h

theorem ultimoRegistro_spec (data : List Record) (c : String) (r : Record)
    (h : ultimoRegistro data c = some r) :
    ∃ pre post, data.filter (fun d => d.Pais = c) = pre ++ r :: post
      ∧ (∀ d ∈ pre, d.Ano < r.Ano) ∧ (∀ d ∈ post, d.Ano ≤ r.Ano) := by
  unfold ultimoRegistro at h
  simp only at h
  cases hf : data.filter (fun d => d.Pais = c) with
  | nil => rw [hf] at h; simp at h
  | cons p rest =>
    rw [hf] at h
    simp only [List.foldl_cons, gt_iff_lt, lt_self_iff_false, if_false, Option.some.injEq] at h
    have := reduce_first_max rest p
    simp only [gt_iff_lt] at this
    rw [h] at this
    exact this

theorem ultimoRegistro_mem (data : List Record) (c : String) (r : Record)
    (h : ultimoRegistro data c = some r) :
    r ∈ data ∧ r.Pais = c ∧ ∀ d ∈ data, d.Pais = c → d.Ano ≤ r.Ano := by
  obtain ⟨pre, post, heq, hpre, hpost⟩ := ultimoRegistro_spec data c r h
  have hr : r ∈ data.filter (fun d => d.Pais = c) := by rw [heq]; simp
  have hr2 := List.mem_filter.1 hr
  refine ⟨hr2.1, by simpa using hr2.2, ?_⟩
  intro d hd hdc
  have : d ∈ data.filter (fun d => d.Pais = c) := List.mem_filter.2 ⟨hd, by simpa using hdc⟩
  rw [heq] at this
  rcases List.mem_append.1 this with hd | hd
  · exact le_of_lt (hpre d hd)
  · rcases List.mem_cons.1 hd with hd | hd
    · rw [hd]
    · exact hpost d hd

theorem ultimoRegistro_isSome (data : List Record) (c : String) (h : c ∈ paisesDe data) :
    ∃ r, ultimoRegistro data c = some r := by
  obtain ⟨d, hd, hdc⟩ := (mem_paisesDe data c).1 h
  have hmem : d ∈ data.filter (fun d => d.Pais = c) := List.mem_filter.2 ⟨hd, by simpa using hdc⟩
  unfold ultimoRegistro
  simp only
  cases hf : data.filter (fun d => d.Pais = c) with
  | nil => rw [hf] at hmem; simp at hmem
  | cons p rest => exact ⟨_, rfl⟩

theorem map_filterMap_of_section {α β : Type} (f : α → Option β) (g : β → α) (l : List α)
    (h : ∀ a ∈ l, ∃ b, f a = some b ∧ g b = a) : (l.filterMap f).map g = l := by
  induction l with
  | nil => rfl
  | cons a l ih =>
    obtain ⟨b, hb, hg⟩ := h a (List.mem_cons_self _ _)
    rw [List.filterMap_cons_some hb, List.map_cons, hg,
      ih (fun x hx => h x (List.mem_cons_of_mem _ hx))]

theorem ultimoAnoData_map_Pais (data : List Record) :
    (ultimoAnoData data).map (fun d => d.Pais) = paisesDe data := by
  unfold ultimoAnoData
  apply map_filterMap_of_section
  intro c hc
  obtain ⟨r, hr⟩ := ultimoRegistro_isSome data c hc
  exact ⟨r, hr, (ultimoRegistro_mem data c r hr).2.1⟩

theorem mem_ultimoAnoData (data : List Record) (r : Record) :
    r ∈ ultimoAnoData data ↔ ultimoRegistro data r.Pais = some r := by
  unfold ultimoAnoData
  rw [List.mem_filterMap]
  constructor
  · rintro ⟨c, _, hc⟩
    have := (ultimoRegistro_mem data c r hc).2.1
    rw [this]; exact hc
  · intro h
    refine ⟨r.Pais, ?_, h⟩
    exact (mem_paisesDe data _).2 ⟨r, (ultimoRegistro_mem data _ r h).1, rfl⟩
theorem paisesDe_perm (data data' : List Record) (h : data'.Perm data) (c : String) :
    c ∈ paisesDe data' ↔ c ∈ paisesDe data := by
  simp only [mem_paisesDe]
  constructor
  · rintro ⟨d, hd, hc⟩; exact ⟨d, h.mem_iff.1 hd, hc⟩
  · rintro ⟨d, hd, hc⟩; exact ⟨d, h.mem_iff.2 hd, hc⟩

/-- C2 (as stated, refuted): two records of one country share its maximum year;
the record selected as latest changes when the input list is permuted. -/
theorem ultimoAnoData_tie_depends_on_order :
    List.Perm [registro "A" 2020 2, registro "A" 2020 1]
        [registro "A" 2020 1, registro "A" 2020 2]
    ∧ ultimoAnoData [registro "A" 2020 1, registro "A" 2020 2] = [registro "A" 2020 1]
    ∧ ultimoAnoData [registro "A" 2020 2, registro "A" 2020 1] = [registro "A" 2020 2]
    ∧ registro "A" 2020 1 ≠ registro "A" 2020 2 := by
  decide

/-- C2 (amended): the latest-per-country selection keeps exactly one record per
distinct country, that record has the maximum `Ano` among the country's
records, and under any permutation of the input the record selected for a
country has the same country and the same (maximum) year; it is the same record
whenever no other record of the country carries that maximum year. -/
theorem ultimoAnoData_max_year_per_country (data data' : List Record)
    (hperm : data'.Perm data) :
    (ultimoAnoData data).map (fun d => d.Pais) = paisesDe data
    ∧ (paisesDe data).Nodup
    ∧ (∀ c, c ∈ paisesDe data ↔ ∃ d ∈ data, d.Pais = c)
    ∧ (∀ r ∈ ultimoAnoData data, r ∈ data ∧ ∀ d ∈ data, d.Pais = r.Pais → d.Ano ≤ r.Ano)
    ∧ (∀ r ∈ ultimoAnoData data, ∃ r' ∈ ultimoAnoData data',
        r'.Pais = r.Pais ∧ r'.Ano = r.Ano
        ∧ ((∀ d ∈ data, d.Pais = r.Pais → d.Ano = r.Ano → d = r) → r' = r)) := by
  refine ⟨ultimoAnoData_map_Pais data, nodup_novoSet _, mem_paisesDe data, ?_, ?_⟩
  · intro r hr
    have h := ultimoRegistro_mem data _ r ((mem_ultimoAnoData data r).1 hr)
    exact ⟨h.1, h.2.2⟩
  · intro r hr
    have h := ultimoRegistro_mem data _ r ((mem_ultimoAnoData data r).1 hr)
    have hc : r.Pais ∈ paisesDe data' :=
      (paisesDe_perm data data' hperm _).2 ((mem_paisesDe data _).2 ⟨r, h.1, rfl⟩)
    obtain ⟨r', hr'⟩ := ultimoRegistro_isSome data' _ hc
    have h' := ultimoRegistro_mem data' _ r' hr'
    have hano : r'.Ano = r.Ano :=
      le_antisymm (h.2.2 r' (hperm.mem_iff.1 h'.1) h'.2.1)
        (h'.2.2 r (hperm.mem_iff.2 h.1) rfl)
    refine ⟨r', ?_, h'.2.1, hano, fun huniq => huniq r' (hperm.mem_iff.1 h'.1) h'.2.1 hano⟩
    rw [mem_ultimoAnoData, h'.2.1]
    exact hr'

/-- C2 (amended), at the sample data and its reversal. -/
theorem ultimoAnoData_max_year_per_country_witness :
    amostra.reverse.Perm amostra
    ∧ ultimoAnoData amostra = [registro "B" 2001 5, registro "A" 2002 1]
    ∧ ultimoAnoData amostra.reverse = [registro "A" 2002 1, registro "B" 2001 5]
    ∧ ∀ r ∈ ultimoAnoData amostra, ∃ r' ∈ ultimoAnoData amostra.reverse,
        r'.Pais = r.Pais ∧ r'.Ano = r.Ano
        ∧ ((∀ d ∈ amostra, d.Pais = r.Pais → d.Ano = r.Ano → d = r) → r' = r) :=
  ⟨List.reverse_perm amostra, by decide, by decide,
    (ultimoAnoData_max_year_per_country amostra amostra.reverse
      (List.reverse_perm amostra)).2.2.2.2⟩
theorem ultimoAnoData_ne_nil (data : List Record) (h : data ≠ []) : ultimoAnoData data ≠ [] := by
  intro hnil
  have hmap := ultimoAnoData_map_Pais data
  rw [hnil] at hmap
  cases data with
  | nil => exact h rfl
  | cons d ds =>
    have : d.Pais ∈ paisesDe (d :: ds) := (mem_paisesDe _ _).2 ⟨d, List.mem_cons_self _ _, rfl⟩
    rw [← hmap] at this
    simp at this

theorem sortedData_pairwise (ultimos : List Record) :
    (sortedData ultimos).Pairwise (fun a b => b.PIB_per_Capita ≤ a.PIB_per_Capita) := by
  have h := jsSort_pairwise (fun a b : Record => b.PIB_per_Capita - a.PIB_per_Capita)
    (fun d : Record => - d.PIB_per_Capita)
    (fun a b => by rw [sub_nonpos, neg_le_neg_iff]) ultimos
  exact h.imp (fun {a b} hab => neg_le_neg_iff.1 hab)

/-- C3: for a non-empty record list the bar chart holds a single bar trace whose
rows are a permutation of the latest-per-country set ordered by
`PIB_per_Capita` descending: x-values non-increasing, `y[i]` the country of the
record whose value is `x[i]`, the first row a record of highest value, and bar
`i` coloured `colorSequence[i mod colorSequence.length]`; the layout reverses
the category axis (`yaxis.autorange` is `"reversed"`), so the first row, a
country of highest value, is the category drawn on top. -/
theorem renderComparisonCharts_bar_ranking (env : Ambiente) (dom : DOM) (data : List Record)
    (fallbackAnoTitulo : String) (hne : data ≠ []) :
    ∃ s : List Record, ∃ top : Record, ∃ cores text : List String,
      (renderComparisonCharts env dom data fallbackAnoTitulo).barras
          = Conteudo.plot
              [Traco.bar (s.map (fun d => d.Pais)) (s.map (fun d => d.PIB_per_Capita)) cores text]
              (barLayout (anoTituloComp (ultimoAnoData data) fallbackAnoTitulo))
      ∧ (barLayout (anoTituloComp (ultimoAnoData data) fallbackAnoTitulo)).title
          = "PIB per Capita Comparativo (" ++ anoTituloComp (ultimoAnoData data) fallbackAnoTitulo ++ ")"
      ∧ (barLayout (anoTituloComp (ultimoAnoData data) fallbackAnoTitulo)).yaxisAutorange = some "reversed"
      ∧ (categoriasDeCimaParaBaixo (barLayout (anoTituloComp (ultimoAnoData data) fallbackAnoTitulo))
          (s.map (fun d => d.Pais))).head? = some top.Pais
      ∧ s.Perm (ultimoAnoData data)
      ∧ (s.map (fun d => d.PIB_per_Capita)).Pairwise (fun a b => b ≤ a)
      ∧ s.head? = some top
      ∧ (∀ r ∈ ultimoAnoData data, r.PIB_per_Capita ≤ top.PIB_per_Capita)
      ∧ cores.length = s.length
      ∧ ∀ i, i < s.length →
          cores[i]? = some (colorSequence.getD (i % colorSequence.length) "") := by
  have hu := ultimoAnoData_ne_nil data hne
  have hperm : (sortedData (ultimoAnoData data)).Perm (ultimoAnoData data) := jsSort_perm _ _
  have hsorted := sortedData_pairwise (ultimoAnoData data)
  cases hs : sortedData (ultimoAnoData data) with
  | nil =>
    rw [hs] at hperm
    exact absurd hperm.symm.eq_nil hu
  | cons top rest =>
    refine ⟨sortedData (ultimoAnoData data), top,
      (sortedData (ultimoAnoData data)).mapIdx (fun i _ => corDoIndice i),
      (sortedData (ultimoAnoData data)).map
        (fun d => env.toFixed 1 (d.PIB_per_Capita / 1000) ++ "k"), ?_, rfl, rfl, ?_, hperm, ?_,
      by rw [hs]; rfl, ?_, ?_, ?_⟩
    · have hlen : 0 < (ultimoAnoData data).length := List.length_pos.2 hu
      simp [renderComparisonCharts, hlen, newPlot, DOM.set, barData]
    · rw [hs]
      simp [categoriasDeCimaParaBaixo, barLayout]
    · rw [List.pairwise_map]; exact hsorted
    · intro r hr
      have hr' : r ∈ top :: rest := by rw [← hs]; exact hperm.mem_iff.2 hr
      rw [hs] at hsorted
      rcases List.mem_cons.1 hr' with h | h
      · rw [h]
      · exact (List.pairwise_cons.1 hsorted).1 r h
    · simp
    · intro i hi
      simp [List.getElem?_mapIdx, hi, corDoIndice]

/-- C3, at the sample data. -/
theorem renderComparisonCharts_bar_ranking_witness :
    amostra ≠ []
    ∧ ∃ s : List Record, ∃ top : Record, ∃ cores text : List String,
      (renderComparisonCharts ambienteFracao domVazio amostra "2002").barras
          = Conteudo.plot
              [Traco.bar (s.map (fun d => d.Pais)) (s.map (fun d => d.PIB_per_Capita)) cores text]
              (barLayout (anoTituloComp (ultimoAnoData amostra) "2002"))
      ∧ (barLayout (anoTituloComp (ultimoAnoData amostra) "2002")).title
          = "PIB per Capita Comparativo (" ++ anoTituloComp (ultimoAnoData amostra) "2002" ++ ")"
      ∧ (barLayout (anoTituloComp (ultimoAnoData amostra) "2002")).yaxisAutorange = some "reversed"
      ∧ (categoriasDeCimaParaBaixo (barLayout (anoTituloComp (ultimoAnoData amostra) "2002"))
          (s.map (fun d => d.Pais))).head? = some top.Pais
      ∧ s.Perm (ultimoAnoData amostra)
      ∧ (s.map (fun d => d.PIB_per_Capita)).Pairwise (fun a b => b ≤ a)
      ∧ s.head? = some top
      ∧ (∀ r ∈ ultimoAnoData amostra, r.PIB_per_Capita ≤ top.PIB_per_Capita)
      ∧ cores.length = s.length
      ∧ ∀ i, i < s.length →
          cores[i]? = some (colorSequence.getD (i % colorSequence.length) "") :=
  ⟨by decide, renderComparisonCharts_bar_ranking ambienteFracao domVazio amostra "2002" (by decide)⟩
theorem map_name_filterMap_mapIdx (l : List String) (g : Nat → String → Option Serie)
    (cond : String → Bool) (hnone : ∀ i c, cond c = false → g i c = none)
    (hsome : ∀ i c, cond c = true → ∃ s, g i c = some s ∧ s.name = c) :
    ((l.mapIdx g).filterMap id).map (fun t => t.name) = l.filter cond := by
  induction l generalizing g with
  | nil => simp
  | cons a l ih =>
    rw [List.mapIdx_cons]
    have ih' := ih (fun i => g (i + 1)) (fun i c => hnone (i + 1) c) (fun i c => hsome (i + 1) c)
    cases hc : cond a with
    | false =>
      rw [List.filterMap_cons_none (by simpa using hnone 0 a hc), ih']
      simp [hc]
    | true =>
      obtain ⟨s, hs, hname⟩ := hsome 0 a hc
      rw [List.filterMap_cons_some (by simpa using hs), List.map_cons, ih', hname]
      simp [hc]

theorem dadosPaisIndicador_spec (data : List Record) (indicador pais : String) :
    ((dadosPaisIndicador data indicador pais).map (fun p => p.1.Ano)).Pairwise (fun a b => a ≤ b)
    ∧ ((dadosPaisIndicador data indicador pais).map (fun p => p.1)).Perm
        (data.filter (fun d => d.Pais = pais && temValor indicador d))
    ∧ (dadosPaisIndicador data indicador pais).map (fun p => p.2)
        = ((dadosPaisIndicador data indicador pais).map (fun p => p.1)).map
            (fun d => parseFloat (d.get indicador)) := by
  refine ⟨?_, ?_, ?_⟩
  · rw [List.pairwise_map]
    exact jsSort_pairwise _ (fun p : Record × Num => p.1.Ano) (fun a b => sub_nonpos) _
  · have h := (jsSort_perm (fun a b : Record × Num => a.1.Ano - b.1.Ano)
      ((data.filter (fun d => d.Pais = pais && temValor indicador d)).map
        (fun d => (d, parseFloat (d.get indicador))))).map (fun p => p.1)
    simpa [dadosPaisIndicador, Function.comp_def] using h
  · rw [List.map_map]
    apply List.map_congr_left
    intro p hp
    have hp' := (jsSort_perm (fun a b : Record × Num => a.1.Ano - b.1.Ano) _).mem_iff.1 hp
    obtain ⟨d, _, rfl⟩ := List.mem_map.1 hp'
    rfl
theorem temValor_eq_false_iff (indicador : String) (d : Record) :
    temValor indicador d = false ↔
      (d.get indicador = some JVal.null ∨ d.get indicador = none
        ∨ d.get indicador = some (JVal.str "N/A") ∨ parseFloat (d.get indicador) = Num.nan) := by
  have hnan : ∀ n : Num, isNaN n = true ↔ n = Num.nan := by
    intro n; cases n <;> simp [isNaN]
  simp only [temValor, Bool.and_eq_false_iff, bne_eq_false_iff_eq, Bool.not_eq_false', hnan,
    or_assoc]

theorem indicadorTraces_names (data : List Record) (indicador : String) :
    (indicadorTraces data indicador).map (fun t => t.name)
    = (paisesDe data).filter
        (fun c => data.any (fun d => d.Pais = c && temValor indicador d)) := by
  unfold indicadorTraces
  apply map_name_filterMap_mapIdx
  · intro i c hc
    have hnil : dadosPaisIndicador data indicador c = [] := by
      have h := (dadosPaisIndicador_spec data indicador c).2.1
      have hf : data.filter (fun d => d.Pais = c && temValor indicador d) = [] := by
        rw [List.filter_eq_nil_iff]
        intro d hd hcond
        have : data.any (fun d => d.Pais = c && temValor indicador d) = true :=
          List.any_eq_true.2 ⟨d, hd, hcond⟩
        rw [hc] at this
        exact Bool.noConfusion this
      rw [hf] at h
      exact List.map_eq_nil_iff.1 h.eq_nil
    simp [hnil]
  · intro i c hc
    obtain ⟨d, hd, hcond⟩ := List.any_eq_true.1 hc
    have hmem : d ∈ data.filter (fun d => d.Pais = c && temValor indicador d) :=
      List.mem_filter.2 ⟨hd, hcond⟩
    have h := (dadosPaisIndicador_spec data indicador c).2.1
    have hne : dadosPaisIndicador data indicador c ≠ [] := by
      intro hnil
      rw [hnil] at h
      have := h.symm.eq_nil
      rw [this] at hmem
      simp at hmem
    have hlen : 0 < (dadosPaisIndicador data indicador c).length := List.length_pos.2 hne
    refine ⟨{ x := (dadosPaisIndicador data indicador c).map (fun d => d.1.Ano)
              y := (dadosPaisIndicador data indicador c).map (fun d => d.2)
              name := c
              color := corDoIndice i }, ?_, rfl⟩
    simp only [gt_iff_lt, hlen, if_true]

theorem indicadorTraces_mem_spec (data : List Record) (indicador : String) (t : Serie)
    (ht : t ∈ indicadorTraces data indicador) :
    t.x.Pairwise (fun a b => a ≤ b)
    ∧ ∃ recs : List Record,
        recs.Perm (data.filter (fun d => d.Pais = t.name && temValor indicador d))
        ∧ t.x = recs.map (fun d => d.Ano)
        ∧ t.y = recs.map (fun d => parseFloat (d.get indicador)) := by
  unfold indicadorTraces at ht
  obtain ⟨o, ho, hid⟩ := List.mem_filterMap.1 ht
  obtain ⟨i, hi, hg⟩ := List.mem_mapIdx.1 ho
  simp only [id] at hid
  subst hid
  by_cases hlen : (dadosPaisIndicador data indicador (paisesDe data)[i]).length > 0
  · rw [if_pos hlen] at hg
    have ht' := Option.some.inj hg
    subst ht'
    have hspec := dadosPaisIndicador_spec data indicador (paisesDe data)[i]
    exact ⟨hspec.1, _, hspec.2.1, by simp [List.map_map, Function.comp_def], hspec.2.2⟩
  · rw [if_neg hlen] at hg
    exact Option.noConfusion hg

theorem indicadorTraces_name_iff (data : List Record) (indicador c : String) :
    (∃ t ∈ indicadorTraces data indicador, t.name = c)
      ↔ ∃ d ∈ data, d.Pais = c ∧ temValor indicador d = true := by
  have hnames := indicadorTraces_names data indicador
  have hmem : (∃ t ∈ indicadorTraces data indicador, t.name = c)
      ↔ c ∈ (indicadorTraces data indicador).map (fun t => t.name) := by
    simp [List.mem_map]
  rw [hmem, hnames, List.mem_filter, List.any_eq_true]
  constructor
  · rintro ⟨_, d, hd, hcond⟩
    simp only [Bool.and_eq_true, decide_eq_true_eq] at hcond
    exact ⟨d, hd, hcond.1, hcond.2⟩
  · rintro ⟨d, hd, hc, ht⟩
    exact ⟨(mem_paisesDe data c).2 ⟨d, hd, hc⟩, d, hd, by simp [hc, ht]⟩

theorem indicadorTraces_names_order (data : List Record) (indicador : String) :
    ((indicadorTraces data indicador).map (fun t => t.name)).Pairwise (fun a b =>
      (data.map (fun d => d.Pais)).indexOf a < (data.map (fun d => d.Pais)).indexOf b) := by
  rw [indicadorTraces_names]
  apply List.Pairwise.filter
  unfold paisesDe
  rw [novoSet_eq_primeiros]
  exact pairwise_indexOf_primeiros _

theorem indicadorTraces_eq_nil_iff (data : List Record) (indicador : String) :
    indicadorTraces data indicador = [] ↔ ∀ d ∈ data, temValor indicador d = false := by
  rw [← List.map_eq_nil_iff (f := fun t : Serie => t.name), indicadorTraces_names,
    List.filter_eq_nil_iff]
  constructor
  · intro h d hd
    have h1 := h d.Pais ((mem_paisesDe data _).2 ⟨d, hd, rfl⟩)
    cases ht : temValor indicador d with
    | false => rfl
    | true =>
      exact absurd (List.any_eq_true.2 ⟨d, hd, by simp [ht]⟩) h1
  · intro h c _ hany
    obtain ⟨d, hd, hcond⟩ := List.any_eq_true.1 hany
    simp only [Bool.and_eq_true, decide_eq_true_eq] at hcond
    rw [h d hd] at hcond
    exact Bool.noConfusion hcond.2

/-- C4 (as stated, refuted): the two records of country B carry the numeric
values 7 and 6 for `Population`, so the loop would give B a series of two
points; but the first record of the list lacks the key, the function returns
before the loop and the panel shows the "not found" placeholder: these records
contribute no point. -/
theorem renderIndicadorAdicionalChart_no_point_without_first_key :
    indicadorTraces amostraSemChave "Population"
        = [{ x := [2000, 2001], y := [Num.fin 6, Num.fin 7], name := "B", color := "#C77DFF" }]
    ∧ (renderIndicadorAdicionalChart domVazio amostraSemChave "Population" "2000"
          "2001").indicador
        = Conteudo.html
            "<p class=\"empty-text\">Indicador 'Population' não encontrado ou sem dados.</p>" := by
  decide

/-- C4 (amended): when an indicator is selected and the first record carries its
key, `renderIndicadorAdicionalChart` plots exactly the series built by its loop
(or shows the "no data" placeholder when there is none), and in them a record
whose indicator value is null, absent, the string "N/A" or not parseable by
`parseFloat` contributes no point; every other record contributes exactly one
point to the series of its country, the points of a series being in ascending
year order; a country has a series exactly when one of its records carries a
value, so a country all of whose records are excluded has none; the series
follow the first appearance of their countries. -/
theorem renderIndicadorAdicionalChart_points (dom : DOM) (primeiro : Record)
    (resto : List Record) (indicador minAno maxAno : String) (hind : indicador ≠ "")
    (hkey : primeiro.hasOwnProperty indicador = true) :
    (∀ d, temValor indicador d = false ↔
      (d.get indicador = some JVal.null ∨ d.get indicador = none
        ∨ d.get indicador = some (JVal.str "N/A") ∨ parseFloat (d.get indicador) = Num.nan))
    ∧ ((∃ d ∈ primeiro :: resto, temValor indicador d = true) →
        (renderIndicadorAdicionalChart dom (primeiro :: resto) indicador minAno maxAno).indicador
          = Conteudo.plot ((indicadorTraces (primeiro :: resto) indicador).map Traco.scatter)
              (layoutDeSeries
                (replaceUnderscores indicador ++ " (" ++ minAno ++ "-" ++ maxAno ++ ")")
                "Ano" (replaceUnderscores indicador)))
    ∧ ((∀ d ∈ primeiro :: resto, temValor indicador d = false) →
        indicadorTraces (primeiro :: resto) indicador = []
        ∧ (renderIndicadorAdicionalChart dom (primeiro :: resto) indicador minAno
              maxAno).indicador
          = Conteudo.html ("<p class=\"empty-text\">Não há dados para '"
              ++ replaceUnderscores indicador ++ "' com os filtros.</p>"))
    ∧ ((indicadorTraces (primeiro :: resto) indicador).map (fun t => t.name)).Nodup
    ∧ (∀ c, (∃ t ∈ indicadorTraces (primeiro :: resto) indicador, t.name = c)
        ↔ ∃ d ∈ primeiro :: resto, d.Pais = c ∧ temValor indicador d = true)
    ∧ (∀ c, (∀ d ∈ primeiro :: resto, d.Pais = c → temValor indicador d = false) →
        ∀ t ∈ indicadorTraces (primeiro :: resto) indicador, t.name ≠ c)
    ∧ ((indicadorTraces (primeiro :: resto) indicador).map (fun t => t.name)).Pairwise
        (fun a b => ((primeiro :: resto).map (fun d => d.Pais)).indexOf a
          < ((primeiro :: resto).map (fun d => d.Pais)).indexOf b)
    ∧ (∀ t ∈ indicadorTraces (primeiro :: resto) indicador,
        t.x.Pairwise (fun a b => a ≤ b)
        ∧ ∃ recs : List Record,
            recs.Perm ((primeiro :: resto).filter
              (fun d => d.Pais = t.name && temValor indicador d))
            ∧ t.x = recs.map (fun d => d.Ano)
            ∧ t.y = recs.map (fun d => parseFloat (d.get indicador))) := by
  refine ⟨temValor_eq_false_iff indicador, ?_, ?_, ?_, indicadorTraces_name_iff _ _, ?_,
    indicadorTraces_names_order _ _, indicadorTraces_mem_spec _ _⟩
  · rintro ⟨d, hd, ht⟩
    have hne : indicadorTraces (primeiro :: resto) indicador ≠ [] := by
      intro hnil
      rw [(indicadorTraces_eq_nil_iff _ _).1 hnil d hd] at ht
      exact Bool.noConfusion ht
    have hlen : (indicadorTraces (primeiro :: resto) indicador).length ≠ 0 := by
      simpa using hne
    simp [renderIndicadorAdicionalChart, hind, hkey, hlen, newPlot, DOM.set]
  · intro hall
    have hnil := (indicadorTraces_eq_nil_iff (primeiro :: resto) indicador).2 hall
    refine ⟨hnil, ?_⟩
    simp [renderIndicadorAdicionalChart, hind, hkey, hnil, DOM.set]
  · rw [indicadorTraces_names]
    exact (nodup_novoSet _).filter _
  · intro c hc t ht hname
    obtain ⟨d, hd, hdc, hval⟩ := (indicadorTraces_name_iff _ _ c).1 ⟨t, ht, hname⟩
    rw [hc d hd hdc] at hval
    exact Bool.noConfusion hval

/-- C4 (amended), at four records that all have the key: country A keeps the
points of 1999 and 2001, its `null` record gives none, and country B, whose only
value is "N/A", has no series. -/
theorem renderIndicadorAdicionalChart_points_witness :
    "Population" ≠ ""
    ∧ ({ Pais := "A", Ano := 2001, PIB_per_Capita := 1,
         campos := [("Population", JVal.num 5)] } : Record).hasOwnProperty "Population" = true
    ∧ (renderIndicadorAdicionalChart domVazio amostraIndicador "Population" "1999"
          "2001").indicador
        = Conteudo.plot
            [Traco.scatter
              { x := [1999, 2001], y := [Num.fin 3, Num.fin 5], name := "A", color := "#9D4EDD" }]
            (layoutDeSeries "Population (1999-2001)" "Ano" "Population") :=
  ⟨by decide, by decide,
    (renderIndicadorAdicionalChart_points domVazio
      { Pais := "A", Ano := 2001, PIB_per_Capita := 1, campos := [("Population", JVal.num 5)] }
      amostraIndicador.tail "Population" "1999" "2001" (by decide) (by decide)).2.1
      (by decide)⟩

/-- C5 (as stated, refuted): `Continent` is a whitelisted column present in the
result set (in its second record), yet the rendered headers leave it out,
because only the first record's keys are consulted. -/
theorem renderDadosDetalhadosTable_headers_from_first_record_only :
    (renderDadosDetalhadosTable ambienteFracao domVazio amostraHeterogenea).detalhes
        = Conteudo.html (detailsTableHTML ["Pais", "Ano", "PIB per Capita"]
            (bodyCells ambienteFracao ["Pais", "Ano", "PIB_per_Capita"] amostraHeterogenea))
    ∧ headerTexts (colunasVisiveis.filter
          (fun col => amostraHeterogenea.any (fun r => r.keys.contains col)))
        = ["Pais", "Ano", "PIB per Capita", "Continent"] := by
  constructor
  · rfl
  · decide

/-- C5 (amended): for a non-empty result set the rendered headers are the
whitelist restricted to the columns present in the first record, in whitelist
order, with underscores shown as spaces (columns `[Ano, Pais, PIB_per_Capita]`
give `[Pais, Ano, PIB per Capita]`); when all records share the first record's
columns this is the whitelist restricted to the columns of the result set; the
body has one row per record and one cell per header. -/
theorem renderDadosDetalhadosTable_headers_and_rows (env : Ambiente) (dom : DOM)
    (primeiro : Record) (resto : List Record) :
    (renderDadosDetalhadosTable env dom (primeiro :: resto)).detalhes
        = Conteudo.html (detailsTableHTML (headerTexts (headersDe primeiro.keys))
            (bodyCells env (headersDe primeiro.keys) (primeiro :: resto)))
    ∧ headersDe primeiro.keys = colunasVisiveis.filter (fun col => primeiro.keys.contains col)
    ∧ (headersDe primeiro.keys).Sublist colunasVisiveis
    ∧ (∀ col, col ∈ headersDe primeiro.keys ↔ col ∈ colunasVisiveis ∧ col ∈ primeiro.keys)
    ∧ ((∀ r ∈ primeiro :: resto, ∀ col, col ∈ r.keys ↔ col ∈ primeiro.keys) →
        headersDe primeiro.keys = colunasVisiveis.filter
          (fun col => (primeiro :: resto).any (fun r => r.keys.contains col)))
    ∧ headerTexts (headersDe primeiro.keys) = (headersDe primeiro.keys).map replaceUnderscores
    ∧ headerTexts (headersDe ["Ano", "Pais", "PIB_per_Capita"]) = ["Pais", "Ano", "PIB per Capita"]
    ∧ (bodyCells env (headersDe primeiro.keys) (primeiro :: resto)).length
        = (primeiro :: resto).length
    ∧ (∀ cells ∈ bodyCells env (headersDe primeiro.keys) (primeiro :: resto),
        cells.length = (headerTexts (headersDe primeiro.keys)).length)
    ∧ (∀ (i : Nat) (row : Record), (primeiro :: resto)[i]? = some row →
        (bodyCells env (headersDe primeiro.keys) (primeiro :: resto))[i]?
          = some ((headersDe primeiro.keys).map
              (fun header => formatCell env header (row.get header)))) := by
  refine ⟨by simp [renderDadosDetalhadosTable, DOM.set], rfl, List.filter_sublist _, ?_, ?_, rfl,
    by decide, by simp [bodyCells], ?_, ?_⟩
  · intro col
    simp [headersDe, List.mem_filter]
  · intro h
    unfold headersDe
    apply List.filter_congr
    intro col _
    rw [Bool.eq_iff_iff]
    have hcont : ∀ ks : List String, ks.contains col = true ↔ col ∈ ks := by
      intro ks; simp
    simp only [List.any_eq_true, hcont]
    constructor
    · intro hc; exact ⟨primeiro, List.mem_cons_self _ _, hc⟩
    · rintro ⟨r, hr, hc⟩; exact (h r hr col).1 hc
  · intro cells hc
    simp only [bodyCells, List.mem_map] at hc
    obtain ⟨row, _, rfl⟩ := hc
    simp [headerTexts]
  · intro i row hi
    unfold bodyCells
    rw [List.getElem?_map, hi]
    rfl
theorem refresh_empty_result (env : Ambiente) (p : Pagina) (st1 st2 : Nat)
    (statsData : List StatRow) :
    (fetchDataAndRenderAllCharts env (Fetch.resposta true st1 [])
        (Fetch.resposta true st2 statsData) p).dom
      = { linha := Conteudo.plot []
            (layoutComTitulo LayoutBase.commonChartLayout "Nenhum dado para os filtros selecionados")
          barras := Conteudo.plot [] (layoutComTitulo LayoutBase.commonChartLayout "Nenhum dado")
          rosca := Conteudo.plot []
            (layoutComTitulo LayoutBase.comparisonChartLayout "Nenhum dado")
          estatisticas :=
            Conteudo.html "<p class=\"empty-text\">Nenhuma estatística disponível.</p>"
          detalhes := Conteudo.html (emptyHTML mensagemPadrao)
          indicador :=
            if p.indicadorDropdown.value = "" then
              Conteudo.html (emptyHTML "Selecione um indicador.")
            else Conteudo.html loadingHTML
          sliderAnosValor :=
            if p.minAnoInput.value ≠ "" ∧ p.maxAnoInput.value ≠ "" then
              p.minAnoInput.value ++ " - " ++ p.maxAnoInput.value
            else p.dom.sliderAnosValor } := by
  by_cases hind : p.indicadorDropdown.value = "" <;>
  by_cases hanos : p.minAnoInput.value ≠ "" ∧ p.maxAnoInput.value ≠ "" <;>
  simp [fetchDataAndRenderAllCharts, renderizarVazio, chamarEstatisticas, renderEstatisticasTable,
    updateAnosValorDisplay, mostrarCarregando, displayLoading, displayEmpty, newPlot, DOM.set,
    hind, hanos]

/-- C6 (code evaluated at the failing input): an indicator is selected, both
requests succeed and the record list is empty; after the refresh the
optional-indicator mount point still shows the loading placeholder, while the
other surfaces show their empty state. -/
theorem fetchDataAndRenderAllCharts_empty_leaves_indicator_loading :
    paginaComIndicador.indicadorDropdown.value = "Population_Growth"
    ∧ (fetchDataAndRenderAllCharts ambienteFracao (Fetch.resposta true 200 [])
        (Fetch.resposta true 200 [statComNull]) paginaComIndicador).dom
      = { linha := Conteudo.plot []
            (layoutComTitulo LayoutBase.commonChartLayout "Nenhum dado para os filtros selecionados")
          barras := Conteudo.plot [] (layoutComTitulo LayoutBase.commonChartLayout "Nenhum dado")
          rosca := Conteudo.plot []
            (layoutComTitulo LayoutBase.comparisonChartLayout "Nenhum dado")
          estatisticas :=
            Conteudo.html "<p class=\"empty-text\">Nenhuma estatística disponível.</p>"
          detalhes := Conteudo.html (emptyHTML mensagemPadrao)
          indicador := Conteudo.html loadingHTML
          sliderAnosValor := "2015 - 2020" } := by
  constructor
  · decide
  · rw [refresh_empty_result]
    decide
theorem mostrarCarregando_fields (dom : DOM) (selectedIndicador : String) :
    (mostrarCarregando dom selectedIndicador).linha = Conteudo.html loadingHTML
    ∧ (mostrarCarregando dom selectedIndicador).barras = Conteudo.html loadingHTML
    ∧ (mostrarCarregando dom selectedIndicador).rosca = Conteudo.html loadingHTML
    ∧ (mostrarCarregando dom selectedIndicador).estatisticas = Conteudo.html loadingHTML
    ∧ (mostrarCarregando dom selectedIndicador).detalhes = Conteudo.html loadingHTML := by
  by_cases h : selectedIndicador = "" <;>
  simp [mostrarCarregando, displayLoading, displayEmpty, DOM.set, h]

/-- C7: when the full-records request or the statistics request comes back with
a non-success status, no renderer is invoked, the error is caught and logged
(the refresh returns), and the line, bar, donut, stats-table and details-table
mount points hold the loading placeholder written at the start of the refresh. -/
theorem fetchDataAndRenderAllCharts_http_error (env : Ambiente) (p : Pagina)
    (full : Fetch (List Record)) (stats : Fetch (List StatRow))
    (h : (∃ status body, full = Fetch.resposta false status body)
      ∨ (∃ status body, stats = Fetch.resposta false status body)) :
    (fetchDataAndRenderAllCharts env full stats p).chamadas = p.chamadas
    ∧ (∃ erro, (fetchDataAndRenderAllCharts env full stats p).console = p.console ++ [erro])
    ∧ (fetchDataAndRenderAllCharts env full stats p).dom
        = mostrarCarregando p.dom p.indicadorDropdown.value
    ∧ (fetchDataAndRenderAllCharts env full stats p).dom.linha = Conteudo.html loadingHTML
    ∧ (fetchDataAndRenderAllCharts env full stats p).dom.barras = Conteudo.html loadingHTML
    ∧ (fetchDataAndRenderAllCharts env full stats p).dom.rosca = Conteudo.html loadingHTML
    ∧ (fetchDataAndRenderAllCharts env full stats p).dom.estatisticas
        = Conteudo.html loadingHTML
    ∧ (fetchDataAndRenderAllCharts env full stats p).dom.detalhes
        = Conteudo.html loadingHTML := by
  have hf := mostrarCarregando_fields p.dom p.indicadorDropdown.value
  have key : ∃ erro, fetchDataAndRenderAllCharts env full stats p
      = registrarErro { p with dom := mostrarCarregando p.dom p.indicadorDropdown.value } erro := by
    rcases h with ⟨status, body, rfl⟩ | ⟨status, body, rfl⟩
    · exact ⟨_, rfl⟩
    · cases full with
      | rejeitado motivo => exact ⟨_, rfl⟩
      | resposta ok st data =>
        cases ok with
        | false => exact ⟨_, rfl⟩
        | true => exact ⟨_, rfl⟩
  obtain ⟨erro, he⟩ := key
  rw [he]
  exact ⟨rfl, ⟨_, rfl⟩, rfl, hf.1, hf.2.1, hf.2.2.1, hf.2.2.2.1, hf.2.2.2.2⟩

/-- C7, at a page with an indicator selected: the records arrive, the
statistics request answers 500. -/
theorem fetchDataAndRenderAllCharts_http_error_witness :
    ((∃ status body, (Fetch.resposta true 200 amostra : Fetch (List Record))
          = Fetch.resposta false status body)
      ∨ (∃ status body, (Fetch.resposta false 500 [] : Fetch (List StatRow))
          = Fetch.resposta false status body))
    ∧ (fetchDataAndRenderAllCharts ambienteFracao (Fetch.resposta true 200 amostra)
        (Fetch.resposta false 500 []) paginaComIndicador).chamadas = []
    ∧ (fetchDataAndRenderAllCharts ambienteFracao (Fetch.resposta true 200 amostra)
        (Fetch.resposta false 500 []) paginaComIndicador).dom.linha
        = Conteudo.html loadingHTML :=
  ⟨Or.inr ⟨500, [], rfl⟩,
    (fetchDataAndRenderAllCharts_http_error ambienteFracao paginaComIndicador
      (Fetch.resposta true 200 amostra) (Fetch.resposta false 500 [])
      (Or.inr ⟨500, [], rfl⟩)).1,
    (fetchDataAndRenderAllCharts_http_error ambienteFracao paginaComIndicador
      (Fetch.resposta true 200 amostra) (Fetch.resposta false 500 [])
      (Or.inr ⟨500, [], rfl⟩)).2.2.2.1⟩
theorem foldl_appendChild_multiple (f : String → String) (data : List String) (sel : Select)
    (hm : sel.multiple = true) :
    data.foldl (fun sel item => sel.appendChild item (f item)) sel
      = { multiple := true
          options := sel.options
            ++ data.map (fun item => { value := item, text := f item, selected := false }) } := by
  induction data generalizing sel with
  | nil => cases sel; simp_all
  | cons a l ih =>
    have hstep : sel.appendChild a (f a)
        = { multiple := true
            options := sel.options ++ [{ value := a, text := f a, selected := false }] } := by
      cases sel; simp_all [Select.appendChild]
    rw [List.foldl_cons, hstep, ih _ rfl]
    simp

theorem foldl_appendChild_selected (f : String → String) (data : List String) (sel : Select)
    (hs : sel.options.any (fun o => o.selected) = true) :
    data.foldl (fun sel item => sel.appendChild item (f item)) sel
      = { multiple := sel.multiple
          options := sel.options
            ++ data.map (fun item => { value := item, text := f item, selected := false }) } := by
  induction data generalizing sel with
  | nil => cases sel; simp
  | cons a l ih =>
    have hstep : sel.appendChild a (f a)
        = { multiple := sel.multiple
            options := sel.options ++ [{ value := a, text := f a, selected := false }] } := by
      have : (sel.options ++ [({ value := a, text := f a, selected := false } : Opcao)]).any
          (fun o => o.selected) = true := by
        rw [List.any_append, hs]; rfl
      simp only [Select.appendChild, this]
      simp
    rw [List.foldl_cons, hstep, ih _ (by simp only [List.any_append, hs, Bool.true_or])]
    simp

theorem selecionarPrimeiros_multiple (sel : Select) (hm : sel.multiple = true) (k : Nat) :
    (List.range k).foldl (fun s i => s.selectIndex i) sel
      = { multiple := true
          options := sel.options.mapIdx
            (fun j o => if j < k then { o with selected := true } else o) } := by
  induction k with
  | zero =>
    cases sel
    simp_all
    apply List.ext_getElem <;> simp
  | succ k ih =>
    rw [List.range_succ, List.foldl_append, ih]
    simp only [List.foldl_cons, List.foldl_nil, Select.selectIndex, List.mapIdx_mapIdx,
      if_true]
    congr 1
    apply List.ext_getElem
    · simp
    · intro i h1 h2
      simp only [List.getElem_mapIdx]
      by_cases hik : i = k
      · simp [hik]
      · by_cases hlt : i < k
        · have : i < k + 1 := by omega
          simp [hik, hlt, this]
        · have : ¬ i < k + 1 := by omega
          simp [hik, hlt, this]
theorem fetchAndPopulate_paises (url : String) (status : Nat) (paises : List String)
    (sel : Select) (hm : sel.multiple = true) :
    (fetchAndPopulate url (Fetch.resposta true status paises) sel true 2 false).1
      = { multiple := true
          options := paises.mapIdx (fun i item =>
            { value := item, text := replaceUnderscores item, selected := decide (i < 2) }) } := by
  have hpop := foldl_appendChild_multiple replaceUnderscores paises
    { sel with options := [] } hm
  simp only [fetchAndPopulate, Bool.not_true, Bool.false_eq_true, if_false, Bool.false_and,
    Bool.true_and, hpop, List.nil_append, selecionarPrimeiros, decide_eq_true_eq,
    show (2 : Nat) > 0 from by decide, if_true]
  rw [selecionarPrimeiros_multiple _ rfl]
  congr 1
  apply List.ext_getElem
  · simp
  · intro i h1 h2
    have hi : i < paises.length := by simpa using h2
    by_cases h2' : i < 2
    · have : i < min 2 paises.length := by omega
      simp [h2', this, hi]
    · have : ¬ i < min 2 paises.length := by omega
      simp [h2', this, hi]

theorem fetchAndPopulate_indicadores (url : String) (status : Nat) (first : String)
    (rest : List String) (sel : Select) (hm : sel.multiple = false) :
    (fetchAndPopulate url (Fetch.resposta true status (first :: rest)) sel false 0 true).1
      = Select.setValue
          { multiple := false
            options := { value := "", text := "Nenhum", selected := true }
              :: (first :: rest).map (fun item =>
                  { value := item, text := replaceUnderscores item, selected := false }) }
          first := by
  have hnone : Select.appendChild { sel with options := [] } "" "Nenhum"
      = { multiple := false, options := [{ value := "", text := "Nenhum", selected := true }] } := by
    simp [Select.appendChild, hm]
  have hpop := foldl_appendChild_selected replaceUnderscores (first :: rest)
    { multiple := false, options := [{ value := "", text := "Nenhum", selected := true }] }
    (by simp)
  simp only [fetchAndPopulate, Bool.not_true, Bool.false_eq_true, if_false, Bool.true_and,
    List.length_cons, gt_iff_lt, Nat.zero_lt_succ, decide_True, if_true, hnone, hpop,
    Bool.not_false, Bool.false_and]
  simp
theorem filter_selected_mapIdx_false {α : Type} (l : List α) (g : Nat → α → Opcao)
    (h : ∀ i o, (g i o).selected = false) :
    (l.mapIdx g).filter (fun o => o.selected) = [] := by
  rw [List.filter_eq_nil_iff]
  intro o ho
  obtain ⟨i, hi, rfl⟩ := List.mem_mapIdx.1 ho
  simp [h]

theorem setValue_options_map (s : Select) (v : String) :
    (s.setValue v).options.map (fun o => (o.value, o.text))
      = s.options.map (fun o => (o.value, o.text)) := by
  apply List.ext_getElem
  · simp [Select.setValue]
  · intro i h1 h2
    simp [Select.setValue]

/-- C8 (as stated, refuted): with the indicators `Inflation_Rate` and `Population`
the indicator selector ends up with `Inflation_Rate` selected, not the synthetic
`Nenhum` option. -/
theorem fetchAndPopulate_selects_first_real_indicator :
    (fetchAndPopulate "/api/lista_indicadores"
        (Fetch.resposta true 200 ["Inflation_Rate", "Population"])
        paginaInicial.indicadorDropdown false 0 true).1.value = "Inflation_Rate"
    ∧ (fetchAndPopulate "/api/lista_indicadores"
        (Fetch.resposta true 200 ["Inflation_Rate", "Population"])
        paginaInicial.indicadorDropdown false 0 true).1.options
      = [{ value := "", text := "Nenhum", selected := false },
         { value := "Inflation_Rate", text := "Inflation Rate", selected := true },
         { value := "Population", text := "Population", selected := false }] := by
  decide

/-- C8 (amended): after the two start-up calls of `fetchAndPopulate` succeed, the
country selector (a multiple-choice list) has its first 2 entries selected (all
of them when there are fewer than 2) and no others; the indicator selector (a
single-choice list) lists the synthetic `Nenhum` option (empty value) followed
by the indicators, and its selected value is the first indicator. -/
theorem fetchAndPopulate_startup_defaults (status1 status2 : Nat) (paises : List String)
    (first : String) (rest : List String) (selP selI : Select)
    (hP : selP.multiple = true) (hI : selI.multiple = false) :
    (fetchAndPopulate "/api/paises" (Fetch.resposta true status1 paises) selP true 2 false).1.options
        = paises.mapIdx (fun i item =>
            { value := item, text := replaceUnderscores item, selected := decide (i < 2) })
    ∧ ((fetchAndPopulate "/api/paises" (Fetch.resposta true status1 paises) selP true 2
          false).1.selectedOptions.map (fun o => o.value)) = paises.take 2
    ∧ ((fetchAndPopulate "/api/lista_indicadores" (Fetch.resposta true status2 (first :: rest))
          selI false 0 true).1.options.map (fun o => (o.value, o.text)))
        = ("", "Nenhum") :: (first :: rest).map (fun item => (item, replaceUnderscores item))
    ∧ (fetchAndPopulate "/api/lista_indicadores" (Fetch.resposta true status2 (first :: rest))
          selI false 0 true).1.value = first
    ∧ (first ≠ "" →
        (fetchAndPopulate "/api/lista_indicadores" (Fetch.resposta true status2 (first :: rest))
          selI false 0 true).1.selectedOptions
          = [{ value := first, text := replaceUnderscores first, selected := true }]) := by
  rw [fetchAndPopulate_paises _ _ _ _ hP, fetchAndPopulate_indicadores _ _ _ _ _ hI]
  refine ⟨rfl, ?_, ?_, ?_, ?_⟩
  · simp only [Select.selectedOptions]
    rcases paises with _ | ⟨a, _ | ⟨b, l⟩⟩
    · rfl
    · rfl
    · rw [List.mapIdx_cons, List.mapIdx_cons]
      simp only [Nat.zero_lt_succ, decide_True, List.filter_cons_of_pos, Nat.reduceAdd,
        Nat.one_lt_ofNat, Nat.lt_add_one, List.map_cons, List.take_succ_cons, List.take_zero]
      rw [filter_selected_mapIdx_false _ _ (by intro i o; simp)]
      rfl
  · rw [setValue_options_map]
    simp [List.map_map, Function.comp_def]
  · by_cases hf : first = ""
    · subst hf
      simp [Select.setValue, Select.value, List.mapIdx_cons, List.findIdx?_cons]
    · have hf' : ¬ "" = first := fun h => hf h.symm
      simp [Select.setValue, Select.value, List.mapIdx_cons, List.findIdx?_cons, hf']
  · intro hf
    have hf' : ¬ "" = first := fun h => hf h.symm
    simp only [Select.setValue, Select.selectedOptions, List.map_cons, List.mapIdx_cons,
      List.findIdx?_cons, decide_eq_true_eq, hf', if_false, if_true, zero_add]
    simp only [Option.map_some', Option.some.injEq, zero_ne_one, decide_False,
      Bool.false_eq_true, not_false_eq_true, List.filter_cons_of_neg, decide_True,
      List.filter_cons_of_pos, one_ne_zero]
    rw [filter_selected_mapIdx_false _ _ (by intro i o; simp)]

/-- C8 (amended), at three countries and two indicators. -/
theorem fetchAndPopulate_startup_defaults_witness :
    paginaInicial.paisesDropdown.multiple = true
    ∧ paginaInicial.indicadorDropdown.multiple = false
    ∧ ((fetchAndPopulate "/api/paises" (Fetch.resposta true 200 ["Brazil", "Germany", "Japan"])
          paginaInicial.paisesDropdown true 2 false).1.selectedOptions.map (fun o => o.value))
        = ["Brazil", "Germany"]
    ∧ (fetchAndPopulate "/api/lista_indicadores"
          (Fetch.resposta true 200 ("Inflation_Rate" :: ["Population"]))
          paginaInicial.indicadorDropdown false 0 true).1.value = "Inflation_Rate" :=
  ⟨rfl, rfl,
    (fetchAndPopulate_startup_defaults 200 200 ["Brazil", "Germany", "Japan"] "Inflation_Rate"
      ["Population"] paginaInicial.paisesDropdown paginaInicial.indicadorDropdown rfl rfl).2.1,
    (fetchAndPopulate_startup_defaults 200 200 ["Brazil", "Germany", "Japan"] "Inflation_Rate"
      ["Population"] paginaInicial.paisesDropdown paginaInicial.indicadorDropdown rfl rfl).2.2.2.1⟩
/-- C9 (as stated, refuted): the second record carries the numeric value 5 for
`Population`, yet no chart is drawn: the first record lacks the key, so the
"not found" placeholder is shown. -/
theorem renderIndicadorAdicionalChart_not_found_despite_value :
    (∃ d ∈ amostraHeterogenea, d.get "Population" = some (JVal.num 5)
        ∧ parseFloat (d.get "Population") = Num.fin 5 ∧ temValor "Population" d = true)
    ∧ (renderIndicadorAdicionalChart domVazio amostraHeterogenea "Population" "2000"
          "2001").indicador
        = Conteudo.html
            "<p class=\"empty-text\">Indicador 'Population' não encontrado ou sem dados.</p>" := by
  refine ⟨⟨_, List.mem_cons_of_mem _ (List.mem_cons_self _ _), by decide, by decide, by decide⟩,
    by decide⟩

/-- C9 (amended): for a non-empty record list and a non-empty indicator key,
`renderIndicadorAdicionalChart` draws a chart (with at least one series) exactly
when the first record has the key and some record carries a parseable numeric
value for it; when the key is absent from the first record (in particular when
it is absent from every record) the "not found" placeholder is shown, and when
the first record has the key but no record has a parseable value the "no data
for this indicator" placeholder is shown; no plot is drawn in either
placeholder case. -/
theorem renderIndicadorAdicionalChart_outcome (dom : DOM) (primeiro : Record)
    (resto : List Record) (indicador minAno maxAno : String) (hind : indicador ≠ "") :
    (primeiro.hasOwnProperty indicador = false →
      (renderIndicadorAdicionalChart dom (primeiro :: resto) indicador minAno maxAno).indicador
        = Conteudo.html ("<p class=\"empty-text\">Indicador '" ++ replaceUnderscores indicador
            ++ "' não encontrado ou sem dados.</p>"))
    ∧ ((∀ d ∈ primeiro :: resto, d.hasOwnProperty indicador = false) →
      (renderIndicadorAdicionalChart dom (primeiro :: resto) indicador minAno maxAno).indicador
        = Conteudo.html ("<p class=\"empty-text\">Indicador '" ++ replaceUnderscores indicador
            ++ "' não encontrado ou sem dados.</p>"))
    ∧ (primeiro.hasOwnProperty indicador = true →
        (∀ d ∈ primeiro :: resto, temValor indicador d = false) →
      (renderIndicadorAdicionalChart dom (primeiro :: resto) indicador minAno maxAno).indicador
        = Conteudo.html ("<p class=\"empty-text\">Não há dados para '"
            ++ replaceUnderscores indicador ++ "' com os filtros.</p>"))
    ∧ (primeiro.hasOwnProperty indicador = true →
        (∃ d ∈ primeiro :: resto, temValor indicador d = true) →
      (renderIndicadorAdicionalChart dom (primeiro :: resto) indicador minAno maxAno).indicador
        = Conteudo.plot ((indicadorTraces (primeiro :: resto) indicador).map Traco.scatter)
            (layoutDeSeries
              (replaceUnderscores indicador ++ " (" ++ minAno ++ "-" ++ maxAno ++ ")")
              "Ano" (replaceUnderscores indicador))
      ∧ indicadorTraces (primeiro :: resto) indicador ≠ [])
    ∧ ((∃ traces layout,
        (renderIndicadorAdicionalChart dom (primeiro :: resto) indicador minAno maxAno).indicador
          = Conteudo.plot traces layout)
      ↔ (primeiro.hasOwnProperty indicador = true
          ∧ ∃ d ∈ primeiro :: resto, temValor indicador d = true)) := by
  have hA : primeiro.hasOwnProperty indicador = false →
      (renderIndicadorAdicionalChart dom (primeiro :: resto) indicador minAno maxAno).indicador
        = Conteudo.html ("<p class=\"empty-text\">Indicador '" ++ replaceUnderscores indicador
            ++ "' não encontrado ou sem dados.</p>") := by
    intro h
    simp [renderIndicadorAdicionalChart, hind, h, DOM.set]
  have hB : primeiro.hasOwnProperty indicador = true →
      (∀ d ∈ primeiro :: resto, temValor indicador d = false) →
      (renderIndicadorAdicionalChart dom (primeiro :: resto) indicador minAno maxAno).indicador
        = Conteudo.html ("<p class=\"empty-text\">Não há dados para '"
            ++ replaceUnderscores indicador ++ "' com os filtros.</p>") := by
    intro h hall
    have hnil := (indicadorTraces_eq_nil_iff (primeiro :: resto) indicador).2 hall
    simp [renderIndicadorAdicionalChart, hind, h, hnil, DOM.set]
  have hC : primeiro.hasOwnProperty indicador = true →
      (∃ d ∈ primeiro :: resto, temValor indicador d = true) →
      (renderIndicadorAdicionalChart dom (primeiro :: resto) indicador minAno maxAno).indicador
        = Conteudo.plot ((indicadorTraces (primeiro :: resto) indicador).map Traco.scatter)
            (layoutDeSeries
              (replaceUnderscores indicador ++ " (" ++ minAno ++ "-" ++ maxAno ++ ")")
              "Ano" (replaceUnderscores indicador))
      ∧ indicadorTraces (primeiro :: resto) indicador ≠ [] := by
    intro h hex
    have hne : indicadorTraces (primeiro :: resto) indicador ≠ [] := by
      intro hnil
      obtain ⟨d, hd, ht⟩ := hex
      rw [(indicadorTraces_eq_nil_iff _ _).1 hnil d hd] at ht
      exact Bool.noConfusion ht
    have hlen : (indicadorTraces (primeiro :: resto) indicador).length ≠ 0 := by
      simpa using hne
    refine ⟨?_, hne⟩
    simp [renderIndicadorAdicionalChart, hind, h, hlen, newPlot, DOM.set]
  refine ⟨hA, fun h => hA (h primeiro (List.mem_cons_self _ _)), hB, hC, ?_⟩
  constructor
  · rintro ⟨traces, layout, hplot⟩
    cases hown : primeiro.hasOwnProperty indicador with
    | false => rw [hA hown] at hplot; exact Conteudo.noConfusion hplot
    | true =>
      refine ⟨rfl, ?_⟩
      by_contra hno
      have hall : ∀ d ∈ primeiro :: resto, temValor indicador d = false := by
        intro d hd
        cases ht : temValor indicador d with
        | false => rfl
        | true => exact absurd ⟨d, hd, ht⟩ hno
      rw [hB hown hall] at hplot
      exact Conteudo.noConfusion hplot
  · rintro ⟨hown, hex⟩
    exact ⟨_, _, (hC hown hex).1⟩

/-- C9 (amended), at the sample data and the indicator `Ano`. -/
theorem renderIndicadorAdicionalChart_outcome_witness :
    "Ano" ≠ ""
    ∧ ((∃ traces layout,
        (renderIndicadorAdicionalChart domVazio (registro "B" 2001 5 :: amostra.tail) "Ano"
            "2000" "2002").indicador = Conteudo.plot traces layout)
      ↔ ((registro "B" 2001 5).hasOwnProperty "Ano" = true
          ∧ ∃ d ∈ registro "B" 2001 5 :: amostra.tail, temValor "Ano" d = true)) :=
  ⟨by decide,
    (renderIndicadorAdicionalChart_outcome domVazio (registro "B" 2001 5) amostra.tail "Ano"
      "2000" "2002" (by decide)).2.2.2.2⟩
/-- C10 (code evaluated at the failing input): a statistics row whose standard
deviation is `null` makes `renderEstatisticasTable` throw instead of rendering
"N/A"; inside the refresh the exception is caught and the statistics mount
point keeps its loading placeholder. -/
theorem renderEstatisticasTable_null_field_throws :
    statComNull.lookup "Desvio Padrão" = some JVal.null
    ∧ renderEstatisticasTable ambienteFracao domVazio [statComNull]
        = Except.error "TypeError: Cannot read properties of null (reading 'toLocaleString')"
    ∧ (fetchDataAndRenderAllCharts ambienteFracao (Fetch.resposta true 200 amostra)
        (Fetch.resposta true 200 [statComNull]) paginaComIndicador).dom.estatisticas
        = Conteudo.html loadingHTML
    ∧ (fetchDataAndRenderAllCharts ambienteFracao (Fetch.resposta true 200 amostra)
        (Fetch.resposta true 200 [statComNull]) paginaComIndicador).console
        = ["Erro ao buscar ou renderizar dados: TypeError: Cannot read properties of null (reading 'toLocaleString')"] := by
  refine ⟨by decide, rfl, ?_, ?_⟩
  · rfl
  · rfl
theorem mapM_except_ok {α β : Type} (f : α → Except String β) (g : α → β) (l : List α)
    (h : ∀ x ∈ l, f x = Except.ok (g x)) : l.mapM f = Except.ok (l.map g) := by
  induction l with
  | nil => rfl
  | cons a l ih =>
    rw [List.mapM_cons, h a (List.mem_cons_self _ _),
      ih (fun x hx => h x (List.mem_cons_of_mem _ hx))]
    rfl

/-- The text of a numeric statistics cell whose value is not `null`. -/
theorem localeOuNA_of_ne_null (env : Ambiente) (v : Option JVal) (h : v ≠ some JVal.null) :
    localeOuNA env v = Except.ok (textoLocale env v) := by
  rcases v with _ | v
  · rfl
  · cases v with
    | null => exact absurd rfl h
    | bool b => rfl
    | num q => rfl
    | str s => rfl

/-- When no numeric field of any row is `null`, `renderEstatisticasTable` writes a
table with one row per statistics row, in input order; a numeric cell is "N/A"
when the field is absent and the locale text of the number when it is one. -/
theorem renderEstatisticasTable_rows_of_no_null (env : Ambiente) (dom : DOM)
    (statsData : List StatRow) (hne : statsData ≠ [])
    (h : ∀ stat ∈ statsData, ∀ key ∈ statKeys, stat.lookup key ≠ some JVal.null) :
    renderEstatisticasTable env dom statsData
      = Except.ok (dom.set "tabela-estatisticas-placeholder"
          (Conteudo.html (statTableHTML (statsData.map (fun stat =>
            ouNA env (stat.lookup "País") :: statKeys.map (fun key => textoLocale env (stat.lookup key))))))) := by
  have hlen : statsData.length ≠ 0 := by simpa using hne
  have hcells : ∀ stat ∈ statsData, statCells env stat
      = Except.ok (ouNA env (stat.lookup "País") :: statKeys.map (fun key => textoLocale env (stat.lookup key))) := by
    intro stat hs
    unfold statCells
    rw [mapM_except_ok _ _ statKeys
      (fun key hk => localeOuNA_of_ne_null env (stat.lookup key) (h stat hs key hk))]
    rfl
  unfold renderEstatisticasTable
  rw [if_neg hlen, mapM_except_ok _ _ statsData hcells]
  rfl
theorem formatCell_num (env : Ambiente) (header : String) (q : Rat) :
    formatCell env header (some (JVal.num q))
      = if header = "PIB_per_Capita" then env.toLocaleString0 q
        else if header = "CAGR_Forecast" ∨ (nomeDeTaxa header = true ∧ q < 1 ∧ q > -1) then
          env.toFixed 2 (q * 100) ++ "%"
        else if ¬ q.isInt then env.toFixed 2 q
        else env.toLocaleString q := by
  simp only [formatCell]
  split_ifs <;> first | rfl | simp_all

/-- C11 (as stated, refuted): the `CAGR_Forecast` value 3/2 is not strictly between
-1 and 1, yet the cell is the percentage text of 150 and not the two-decimal
text of 3/2. -/
theorem formatCell_CAGR_Forecast_percent_outside_range :
    ¬ ((-1 : Rat) < 3 / 2 ∧ (3 / 2 : Rat) < 1)
    ∧ formatCell ambienteFracao "CAGR_Forecast" (some (JVal.num (3 / 2)))
        = ambienteFracao.toFixed 2 150 ++ "%"
    ∧ formatCell ambienteFracao "CAGR_Forecast" (some (JVal.num (3 / 2))) = "150/1%"
    ∧ ambienteFracao.toFixed 2 (3 / 2) = "3/2" := by
  have h150 : (3 / 2 : Rat) * 100 = 150 := by norm_num
  refine ⟨by norm_num, ?_, ?_, ?_⟩
  · rw [formatCell_num, if_neg (by decide), if_pos (Or.inl rfl), h150]
  · rw [formatCell_num, if_neg (by decide), if_pos (Or.inl rfl), h150]
    rfl
  · with_unfolding_all rfl
/-- C11 (amended): the text of a cell of the detailed-records table is chosen as
follows: a missing, null or "N/A" value renders as "N/A"; a numeric
`PIB_per_Capita` renders as a grouped integer; a numeric `CAGR_Forecast`
renders as a percentage with two decimals whatever its value; a numeric value
in another column named as a rate renders as a percentage with two decimals
only when it is strictly between -1 and 1; any other non-integer number renders
with two decimals; any other integer renders with locale grouping.  No column
of the whitelist is named as a rate. -/
theorem formatCell_rule (env : Ambiente) (header : String) :
    formatCell env header none = "N/A"
    ∧ formatCell env header (some JVal.null) = "N/A"
    ∧ formatCell env header (some (JVal.str "N/A")) = "N/A"
    ∧ (∀ q : Rat, header = "PIB_per_Capita" →
        formatCell env header (some (JVal.num q)) = env.toLocaleString0 q)
    ∧ (∀ q : Rat, header = "CAGR_Forecast" →
        formatCell env header (some (JVal.num q)) = env.toFixed 2 (q * 100) ++ "%")
    ∧ (∀ q : Rat, header ≠ "PIB_per_Capita" → header ≠ "CAGR_Forecast" →
        nomeDeTaxa header = true → -1 < q → q < 1 →
        formatCell env header (some (JVal.num q)) = env.toFixed 2 (q * 100) ++ "%")
    ∧ (∀ q : Rat, header ≠ "PIB_per_Capita" → header ≠ "CAGR_Forecast" →
        ¬ (nomeDeTaxa header = true ∧ -1 < q ∧ q < 1) → q.isInt = false →
        formatCell env header (some (JVal.num q)) = env.toFixed 2 q)
    ∧ (∀ q : Rat, header ≠ "PIB_per_Capita" → header ≠ "CAGR_Forecast" →
        ¬ (nomeDeTaxa header = true ∧ -1 < q ∧ q < 1) → q.isInt = true →
        formatCell env header (some (JVal.num q)) = env.toLocaleString q)
    ∧ (∀ col ∈ colunasVisiveis, nomeDeTaxa col = false)
    ∧ (∀ (headers : List String) (data : List Record),
        bodyCells env headers data
          = data.map (fun row => headers.map (fun h => formatCell env h (row.get h)))) := by
  refine ⟨rfl, rfl, rfl, ?_, ?_, ?_, ?_, ?_, by with_unfolding_all decide, fun _ _ => rfl⟩
  · intro q h
    rw [formatCell_num, if_pos h]
  · intro q h
    have hp : header ≠ "PIB_per_Capita" := by rw [h]; decide
    rw [formatCell_num, if_neg hp, if_pos (Or.inl h)]
  · intro q hp hc hr h1 h2
    rw [formatCell_num, if_neg hp, if_pos (Or.inr ⟨hr, h2, h1⟩)]
  · intro q hp hc hr hi
    have hcond : ¬ (header = "CAGR_Forecast" ∨ (nomeDeTaxa header = true ∧ q < 1 ∧ q > -1)) := by
      rintro (h | ⟨h1, h2, h3⟩)
      · exact hc h
      · exact hr ⟨h1, h3, h2⟩
    rw [formatCell_num, if_neg hp, if_neg hcond, if_pos (by simp [hi])]
  · intro q hp hc hr hi
    have hcond : ¬ (header = "CAGR_Forecast" ∨ (nomeDeTaxa header = true ∧ q < 1 ∧ q > -1)) := by
      rintro (h | ⟨h1, h2, h3⟩)
      · exact hc h
      · exact hr ⟨h1, h3, h2⟩
    rw [formatCell_num, if_neg hp, if_neg hcond, if_neg (by simp [hi])]

/-- C12 (as stated, refuted): three records of country A share its maximum year
2020; the selection keeps the first of them in input order, not the last. -/
theorem ultimoAnoData_tie_keeps_first_seen :
    ultimoAnoData amostraEmpate = [registro "A" 2020 1]
    ∧ amostraEmpate.getLast? = some (registro "A" 2020 3)
    ∧ (registro "A" 2020 3).Ano = (registro "A" 2020 1).Ano
    ∧ registro "A" 2020 1 ≠ registro "A" 2020 3 := by
  decide

/-- C12 (amended): the record selected for a country by the reduce-based
latest-per-country selection is the first record, in input order, that has that
country and the country's maximum `Ano`: when several records share the maximum
year, the first-seen of them wins. -/
theorem ultimoAnoData_first_seen_wins (data : List Record) (r : Record)
    (hr : r ∈ ultimoAnoData data) :
    (∀ d ∈ data, d.Pais = r.Pais → d.Ano ≤ r.Ano)
    ∧ data.find? (fun d => decide (d.Pais = r.Pais) && decide (d.Ano = r.Ano)) = some r
    ∧ ∃ antes depois, data.filter (fun d => d.Pais = r.Pais) = antes ++ r :: depois
        ∧ (∀ d ∈ antes, d.Ano < r.Ano) ∧ (∀ d ∈ depois, d.Ano ≤ r.Ano) := by
  have hsel := (mem_ultimoAnoData data r).1 hr
  obtain ⟨pre, post, heq, hpre, hpost⟩ := ultimoRegistro_spec data r.Pais r hsel
  refine ⟨(ultimoRegistro_mem data r.Pais r hsel).2.2, ?_, pre, post, heq, hpre, hpost⟩
  have hfind : (data.filter (fun d => d.Pais = r.Pais)).find? (fun d => decide (d.Ano = r.Ano))
      = some r := by
    rw [heq, List.find?_append]
    have hnone : pre.find? (fun d => decide (d.Ano = r.Ano)) = none := by
      rw [List.find?_eq_none]
      intro d hd
      have := hpre d hd
      simp only [decide_eq_true_eq]
      omega
    rw [hnone]
    simp
  rw [List.find?_filter] at hfind
  rw [← hfind]
  congr 1
  funext d
  simp

/-- C12 (amended), at four records of one country of which three share the
maximum year. -/
theorem ultimoAnoData_first_seen_wins_witness :
    registro "A" 2020 1 ∈ ultimoAnoData amostraEmpate
    ∧ amostraEmpate.find?
        (fun d => decide (d.Pais = (registro "A" 2020 1).Pais)
          && decide (d.Ano = (registro "A" 2020 1).Ano)) = some (registro "A" 2020 1) :=
  ⟨by decide,
    (ultimoAnoData_first_seen_wins amostraEmpate (registro "A" 2020 1) (by decide)).2.1⟩

end Dashboard
